import Mathlib

/-!
# jetstream-cdevents-sink: the inbound processing pipeline

A shallow embedding of the dispatcher (`internal/adapter/adapter.go`), of the
dead-letter escalator (`internal/invalidmsg/invalidmsg.go`), of the reference
translators (`internal/translator/gitea.go`, `internal/structs/gitea.go`) and of the
webhook handler (`internal/webhook/webhook.go`), with the interfaces they are written
against (`internal/transport/transport.go`, `internal/translator/translator.go`).

Conventions of the embedding.

* A Go `string` is a Lean `String`, a `[]byte` is a list of bytes, a `uint64` is a
  `Nat` (no arithmetic is done on the delivery counters, so nothing can wrap).
* A Go `error` value is the record of its `Error()` text; a nil error is `none`.
* A Go call returning `(value, error)` whose caller tests the error first is an
  `Except`; where the caller ignores the error the pair is kept as a pair.
* A collaborator reached through an interface (translator, publisher, escalator) is
  a record of functions, one per method; each is called at most once per processing
  attempt, so a function of the arguments loses nothing. A message is the record of
  what its accessors return, the same on every call.
* Side effects are recorded as the list of collaborator calls a function makes, in
  program order (`Call`). Logging is not recorded.
* `encoding/json`, `strings` and `fmt` belong to the Go standard library. The two
  `strings` functions are written out after their documentation; `encoding/json`
  is a parameter (`encoding_json`), so every statement holds for any decoder.
* The translators reach three more libraries. `json.Unmarshal` at the event structs
  (`structs.Decoder`) and `net/url` (`net_url`) are parameters as well. The CDEvents
  SDK is written out: an event is the record of what its getters return, a setter
  updates one field (`SetSource` also gives an empty subject source the same value),
  and the constructors and `SetCustomData` do not fail. A Go `int` is an `Int`.
* A function that changes an event through its pointer and returns an error gives the
  pair of the error and the event afterwards.
* An HTTP request is the record of what the handler reads from it, the response the
  record of the status code and the body written; `mime.ParseMediaType` is a parameter
  (`mime`).
-/

/-! ## Go values -/

/-- Byte slices (`[]byte`). -/
abbrev Bytes := List UInt8

/-- The bytes of an ASCII text, as `[]byte("...")` gives them. -/
def bytesOf (s : String) : Bytes :=
  s.data.map (fun c => c.toNat.toUInt8)

/-- Go `error` values, identified by the text `Error()` returns. -/
structure GoError where
  Error : String
deriving DecidableEq

/-- Go `time.Time` as far as RFC 3339 sees it: an instant and a zone offset. -/
structure Time where
  unixNano : Int
  zoneOffset : Int
deriving DecidableEq

/-- Go `float64`, kept as its bit pattern. -/
structure float64 where
  bits : Nat
deriving DecidableEq

/-- The generic values `json.Unmarshal` stores in an `interface{}`: nil, `bool`,
`float64`, `string`, `[]interface{}` and `map[string]interface{}`. -/
inductive JSONValue where
  | null : JSONValue
  | bool : Bool → JSONValue
  | number : float64 → JSONValue
  | string : String → JSONValue
  | array : List JSONValue → JSONValue
  | object : List (String × JSONValue) → JSONValue

namespace strings

/-- Cuts a character sequence at every `sep`: the first segment and the list of the
segments after it. -/
def splitChars (sep : Char) : List Char → List Char × List (List Char)
  | [] => ([], [])
  | c :: cs =>
    if c = sep then ([], (splitChars sep cs).1 :: (splitChars sep cs).2)
    else (c :: (splitChars sep cs).1, (splitChars sep cs).2)

/-- Go `strings.Split(s, sep)` for a one-character separator, the only form the
program uses: the substrings between separators, one more than there are
separators, so `[s]` when `s` has none (and `[""]` for the empty string). -/
def Split (s : String) (sep : Char) : List String :=
  String.mk (splitChars sep s.data).1 :: (splitChars sep s.data).2.map String.mk

/-- Go `strings.Join(elems, sep)`. -/
def Join : List String → String → String
  | [], _ => ""
  | [a], _ => a
  | a :: b :: rest, sep => a ++ sep ++ Join (b :: rest) sep

end strings

/-! ## `nats.go/jetstream` and `cdevents` types the program handles -/

namespace jetstream

/-- Go `jetstream.SequencePair`. -/
structure SequencePair where
  Consumer : Nat
  Stream : Nat
deriving DecidableEq

/-- Go `jetstream.MsgMetadata`, with the fields the program reads. -/
structure MsgMetadata where
  Sequence : SequencePair
  NumDelivered : Nat
  Timestamp : Time
  Stream : String
  Consumer : String
deriving DecidableEq

/-- Go `jetstream.PubAck`. -/
structure PubAck where
  Stream : String
  Sequence : Nat
deriving DecidableEq

end jetstream

namespace structs

/-- The anonymous struct of `Repository.Owner` in `structs.commonFields`. -/
structure owner where
  Username : String := ""
deriving DecidableEq

/-- The anonymous struct of the field `Repository` in `structs.commonFields`. -/
structure repository where
  Name : String := ""
  Owner : owner := {}
  FullName : String := ""
  Url : String := ""
  HtmlUrl : String := ""
  SshUrl : String := ""
deriving DecidableEq

/-- The struct `structs.commonFields`, embedded in every event struct. -/
structure commonFields where
  Repository : repository := {}
deriving DecidableEq

/-- The struct `structs.authorCommitter`. -/
structure authorCommitter where
  Name : String := ""
  Email : String := ""
  Username : String := ""
deriving DecidableEq

/-- The struct `structs.commit`. -/
structure commit where
  Id : String := ""
  Message : String := ""
  Timestamp : String := ""
  Author : authorCommitter := {}
  Committer : authorCommitter := {}
deriving DecidableEq

/-- The struct `structs.pullRequestRef`. -/
structure pullRequestRef where
  Label : String := ""
  Ref : String := ""
  Sha : String := ""
deriving DecidableEq

/-- The struct `structs.pullRequest`. -/
structure pullRequest where
  Id : Int := 0
  Title : String := ""
  Base : pullRequestRef := {}
  Head : pullRequestRef := {}
  CreatedAt : String := ""
  UpdatedAt : String := ""
  ClosedAt : String := ""
deriving DecidableEq

/-- The struct `structs.GiteaPushEvent`. Every field defaults to its Go zero value,
which is what `json.Unmarshal` leaves for a key the payload does not have. -/
structure GiteaPushEvent extends commonFields where
  Ref : String := ""
  Before : String := ""
  After : String := ""
  Commits : List commit := []
  TotalCommits : Int := 0
  HeadCommit : commit := {}
deriving DecidableEq

/-- The struct `structs.GiteaPullRequestEvent`. -/
structure GiteaPullRequestEvent extends commonFields where
  Action : String := ""
  Number : Int := 0
  PullRequest : pullRequest := {}
deriving DecidableEq

/-- The struct `structs.GiteaCreateEvent`. -/
structure GiteaCreateEvent extends commonFields where
  Sha : String := ""
  Ref : String := ""
  RefType : String := ""
deriving DecidableEq

/-- The struct `structs.GiteaDeleteEvent`. -/
structure GiteaDeleteEvent extends commonFields where
  Ref : String := ""
  RefType : String := ""
deriving DecidableEq

/-- The values the translators pass as `giteaEvent interface{}`: one of the four event
structs (the `default: panic` of the type switch is never reached). -/
inductive GiteaEvent where
  | Create (v : GiteaCreateEvent)
  | Delete (v : GiteaDeleteEvent)
  | Push (v : GiteaPushEvent)
  | PullRequest (v : GiteaPullRequestEvent)
deriving DecidableEq

end structs

namespace cdevents

/-- The values the translators hand to `SetCustomData`: an event struct itself, or the
struct with fields `Kind` and `Content` of `addGiteaEventAsCustomData`. -/
inductive CustomData where
  | event (giteaEvent : structs.GiteaEvent)
  | tagged (Kind : String) (Content : structs.GiteaEvent)
deriving DecidableEq

/-- The event types the reference translators create. -/
inductive CDEventType where
  | ChangeMerged
  | ChangeCreated
  | BranchCreated
  | BranchDeleted
deriving DecidableEq

/-- A `cdevents.CDEvent`: what the getters of the SDK return for it. -/
structure CDEvent where
  EventType : CDEventType
  Source : String
  SubjectId : String
  SubjectSource : String
  SubjectRepository : Option String
  SubjectDescription : String
  CustomDataContentType : String := ""
  CustomData : Option CustomData := none
deriving DecidableEq

/-- The setter `SetSource`: it sets the source and, when the subject source is still
empty, defaults the subject source to the same value. -/
def CDEvent.SetSource (e : CDEvent) (source : String) : CDEvent :=
  { e with
    Source := source
    SubjectSource := if e.SubjectSource = "" then source else e.SubjectSource }

/-- The setter `SetSubjectId`. -/
def CDEvent.SetSubjectId (e : CDEvent) (subjectId : String) : CDEvent :=
  { e with SubjectId := subjectId }

/-- The setter `SetSubjectSource`. -/
def CDEvent.SetSubjectSource (e : CDEvent) (subjectSource : String) : CDEvent :=
  { e with SubjectSource := subjectSource }

/-- The setter `SetSubjectRepository`, at `&cdevents.Reference{Id: id}`. -/
def CDEvent.SetSubjectRepository (e : CDEvent) (id : String) : CDEvent :=
  { e with SubjectRepository := some id }

/-- The setter `SetSubjectDescription`. -/
def CDEvent.SetSubjectDescription (e : CDEvent) (description : String) : CDEvent :=
  { e with SubjectDescription := description }

/-- The setter `SetCustomData`: the error it returns and the event afterwards. With
the content type `application/json` the SDK marshals the data, which cannot fail for
the event structs (strings, integers and lists of such), so the error is nil. -/
def CDEvent.SetCustomData (e : CDEvent) (contentType : String) (data : cdevents.CustomData) :
    Option GoError × CDEvent :=
  (none, { e with CustomDataContentType := contentType, CustomData := some data })

end cdevents

namespace cdeventsv04

/-- A fresh event of the given type, nothing set. -/
def newEvent (t : cdevents.CDEventType) : cdevents.CDEvent :=
  { EventType := t, Source := "", SubjectId := "", SubjectSource := "",
    SubjectRepository := none, SubjectDescription := "" }

/-- The SDK constructor `cdeventsv04.NewChangeMergedEvent()`. The SDK returns an error
only when it cannot draw a random event id; that failure is left out. -/
def NewChangeMergedEvent : Except GoError cdevents.CDEvent :=
  .ok (newEvent .ChangeMerged)

/-- The SDK constructor `cdeventsv04.NewChangeCreatedEvent()`. -/
def NewChangeCreatedEvent : Except GoError cdevents.CDEvent :=
  .ok (newEvent .ChangeCreated)

/-- The SDK constructor `cdeventsv04.NewBranchCreatedEvent()`. -/
def NewBranchCreatedEvent : Except GoError cdevents.CDEvent :=
  .ok (newEvent .BranchCreated)

/-- The SDK constructor `cdeventsv04.NewBranchDeletedEvent()`. -/
def NewBranchDeletedEvent : Except GoError cdevents.CDEvent :=
  .ok (newEvent .BranchDeleted)

end cdeventsv04

/-! ## `internal/transport/transport.go` and `internal/translator/translator.go` -/

namespace transport

/-- The interface `transport.JetstreamMsg`: `Data()`, `Subject()`, `Ack()` and
`Metadata()`, each given by what it returns. -/
structure JetstreamMsg where
  Data : Bytes
  Subject : String
  Ack : Option GoError
  Metadata : Except GoError jetstream.MsgMetadata

/-- The interface `transport.JetstreamPublisher`. -/
structure JetstreamPublisher where
  Publish : String → Bytes → Except GoError jetstream.PubAck

/-- The interface `transport.CloudEventPublisher`. -/
structure CloudEventPublisher where
  Publish : cdevents.CDEvent → Option GoError

end transport

namespace translator

/-- The interface `translator.Webhook`. -/
structure Webhook where
  Translate : Bytes → Except GoError cdevents.CDEvent

end translator

/-! ## `encoding/json` -/

namespace invalidmsg

/-- The struct `invalidmsg.Holder`; the JSON keys of its fields are `subject`,
`timestamp`, `stream_seq`, `num_delivered`, `error` and `content`. -/
structure Holder where
  Subject : String
  Timestamp : Time
  StreamSeq : Nat
  NumDelivered : Nat
  Error : String
  Content : JSONValue

end invalidmsg

/-- The functions of Go `encoding/json` the program calls. `Unmarshal` is
`json.Unmarshal(data, &v)` for `v` of type `interface{}`; `MarshalHolder` is
`json.Marshal` at an `invalidmsg.Holder`, returning Go's pair of bytes and error. -/
structure encoding_json where
  Unmarshal : Bytes → Except GoError JSONValue
  MarshalHolder : invalidmsg.Holder → Bytes × Option GoError

namespace encoding_json

/-- The name Go gives the kind of a JSON value in an `UnmarshalTypeError`. -/
def kindName : JSONValue → String
  | .null => "null"
  | .bool _ => "bool"
  | .number _ => "number"
  | .string _ => "string"
  | .array _ => "array"
  | .object _ => "object"

/-- The call `json.Unmarshal(data, &v)` for `v` of type `map[string]interface{}`:
the input must be valid JSON; an object fills the map, `null` leaves the map nil,
and every other value is an `UnmarshalTypeError`. -/
def UnmarshalMap (js : encoding_json) (data : Bytes) :
    Except GoError (Option (List (String × JSONValue))) :=
  match js.Unmarshal data with
  | .error err => .error err
  | .ok (.object fields) => .ok (some fields)
  | .ok .null => .ok none
  | .ok v => .error ⟨"json: cannot unmarshal " ++ kindName v ++
      " into Go value of type map[string]interface \x7b\x7d"⟩

/-- The round trip `encoding/json` gives for the content of a dead-letter record: when
the content of a record is a value `Unmarshal` decoded from some payload and `Marshal`
accepts the record, decoding the marshalled bytes gives an object whose `content`
field is that value again. -/
def ContentRoundTrip (js : encoding_json) : Prop :=
  ∀ (payload : Bytes) (h : invalidmsg.Holder) (data : Bytes),
    js.Unmarshal payload = .ok h.Content → js.MarshalHolder h = (data, none) →
    ∃ fields, js.Unmarshal data = .ok (.object fields) ∧
      fields.lookup "content" = some h.Content

end encoding_json

/-! ## Recorded calls -/

/-- One call made on a collaborator. -/
inductive Call where
  | Ack (msg : transport.JetstreamMsg)
  | Receive (invalidMsg : transport.JetstreamMsg) (originalErr : GoError)
  | Translate (translator : translator.Webhook) (data : Bytes)
  | Publish (cdEvent : cdevents.CDEvent)
  | JetstreamPublish (subject : String) (data : Bytes)

namespace Call

/-- The messages acknowledged, in order. -/
def acks : List Call → List transport.JetstreamMsg
  | [] => []
  | .Ack msg :: rest => msg :: acks rest
  | _ :: rest => acks rest

/-- The escalator calls, in order: the message and the error handed over. -/
def escalations : List Call → List (transport.JetstreamMsg × GoError)
  | [] => []
  | .Receive invalidMsg originalErr :: rest => (invalidMsg, originalErr) :: escalations rest
  | _ :: rest => escalations rest

/-- The translator calls, in order: the translator invoked and the bytes given. -/
def translations : List Call → List (translator.Webhook × Bytes)
  | [] => []
  | .Translate t data :: rest => (t, data) :: translations rest
  | _ :: rest => translations rest

/-- The events handed to the cloud-event publisher, in order. -/
def publishes : List Call → List cdevents.CDEvent
  | [] => []
  | .Publish cdEvent :: rest => cdEvent :: publishes rest
  | _ :: rest => publishes rest

/-- The JetStream publish calls, in order: subject and data. -/
def jetstreamPublishes : List Call → List (String × Bytes)
  | [] => []
  | .JetstreamPublish subject data :: rest => (subject, data) :: jetstreamPublishes rest
  | _ :: rest => jetstreamPublishes rest

end Call

/-! ## `internal/invalidmsg/invalidmsg.go` -/

namespace invalidmsg

/-- The interface `invalidmsg.Handler`. -/
structure Handler where
  Receive : transport.JetstreamMsg → GoError → Option GoError

/-- The struct `invalidmsg.jetStreamInvalidMsgHandler` (without its logger). -/
structure jetStreamInvalidMsgHandler where
  publisher : transport.JetstreamPublisher
  outgoingSubjectBase : String

/-- The method `(*jetStreamInvalidMsgHandler).Receive`: the error it returns and the
calls it makes. The error of `json.Marshal` is assigned and never read, so the bytes
Marshal returned are published whatever that error is; the subject is
`fmt.Sprintf("%s.%s", i.outgoingSubjectBase, invalidMsg.Subject())`. -/
def jetStreamInvalidMsgHandler.Receive (js : encoding_json) (i : jetStreamInvalidMsgHandler)
    (invalidMsg : transport.JetstreamMsg) (originalErr : GoError) :
    Option GoError × List Call :=
  match invalidMsg.Metadata with
  | .error err => (some err, [])
  | .ok invalidMsgMetadata =>
    match js.Unmarshal invalidMsg.Data with
    | .error err => (some err, [])
    | .ok invalidMsgContent =>
      let outgoingMsgData := (js.MarshalHolder {
        Subject := invalidMsg.Subject
        Content := invalidMsgContent
        Timestamp := invalidMsgMetadata.Timestamp
        StreamSeq := invalidMsgMetadata.Sequence.Stream
        NumDelivered := invalidMsgMetadata.NumDelivered
        Error := originalErr.Error }).1
      let subject := i.outgoingSubjectBase ++ "." ++ invalidMsg.Subject
      match i.publisher.Publish subject outgoingMsgData with
      | .error err => (some err, [Call.JetstreamPublish subject outgoingMsgData])
      | .ok _ => (none, [Call.JetstreamPublish subject outgoingMsgData])

/-- The constructor `NewJetStreamInvalidMsgHandler`, as the `Handler` it returns. -/
def NewJetStreamInvalidMsgHandler (js : encoding_json)
    (publisher : transport.JetstreamPublisher) (outgoingSubjectBase : String) : Handler :=
  { Receive := fun invalidMsg originalErr =>
      (jetStreamInvalidMsgHandler.Receive js
        { publisher := publisher, outgoingSubjectBase := outgoingSubjectBase }
        invalidMsg originalErr).1 }

end invalidmsg

/-! ## `internal/adapter/adapter.go` -/

namespace adapter

/-- The error `adapter.ErrInvalidSubject`. -/
def ErrInvalidSubject : GoError := ⟨"Message subject is invalid"⟩

/-- The error `adapter.ErrNoTranslator`. -/
def ErrNoTranslator : GoError := ⟨"No translator found"⟩

/-- The error `adapter.ErrTranslationFailed`. -/
def ErrTranslationFailed : GoError := ⟨"Could not translate event"⟩

/-- The error `adapter.ErrPublishFailed`. -/
def ErrPublishFailed : GoError := ⟨"Failed to publish event"⟩

/-- The struct `adapter.CDEvents` (without its logger). The Go map `translators` is
the list of its entries, read with `List.lookup`. -/
structure CDEvents where
  publisher : transport.CloudEventPublisher
  invMsgHandler : invalidmsg.Handler
  translators : List (String × translator.Webhook)

/-- The expression `strings.Split(msg.Subject(), ".")` of `Process`. -/
def subjectParts (msg : transport.JetstreamMsg) : List String :=
  strings.Split msg.Subject '.'

/-- The expression `strings.Join(subjectParts[1:], ".")` of `Process`. -/
def eventSubject (subjectParts : List String) : String :=
  strings.Join (subjectParts.drop 1) "."

/-- The body of `(*CDEvents).Process`, from the call of `msg.Metadata()` to the
return: the error returned and the calls made. -/
def CDEvents.processBody (js : encoding_json) (c : CDEvents) (msg : transport.JetstreamMsg) :
    Option GoError × List Call :=
  match msg.Metadata with
  | .error err => (some err, [])
  | .ok _ =>
    match js.UnmarshalMap msg.Data with
    | .error err => (some err, [])
    | .ok _ =>
      if (subjectParts msg).length < 2 then
        match c.invMsgHandler.Receive msg ErrInvalidSubject with
        | some err => (some err, [Call.Receive msg ErrInvalidSubject])
        | none => (none, [Call.Receive msg ErrInvalidSubject])
      else
        match c.translators.lookup (eventSubject (subjectParts msg)) with
        | none =>
          match c.invMsgHandler.Receive msg ErrNoTranslator with
          | some err => (some err, [Call.Receive msg ErrNoTranslator])
          | none => (none, [Call.Receive msg ErrNoTranslator])
        | some translator =>
          match translator.Translate msg.Data with
          | .error _ =>
            match c.invMsgHandler.Receive msg ErrTranslationFailed with
            | some err =>
              (some err, [Call.Translate translator msg.Data,
                Call.Receive msg ErrTranslationFailed])
            | none =>
              (none, [Call.Translate translator msg.Data,
                Call.Receive msg ErrTranslationFailed])
          | .ok cdEvent =>
            match c.publisher.Publish cdEvent with
            | some _ =>
              match c.invMsgHandler.Receive msg ErrPublishFailed with
              | some err =>
                (some err, [Call.Translate translator msg.Data, Call.Publish cdEvent,
                  Call.Receive msg ErrPublishFailed])
              | none =>
                (none, [Call.Translate translator msg.Data, Call.Publish cdEvent,
                  Call.Receive msg ErrPublishFailed])
            | none => (none, [Call.Translate translator msg.Data, Call.Publish cdEvent])

/-- The method `(*CDEvents).Process`: `defer msg.Ack()` runs once the body has
returned, whatever it returned, and its result is dropped. -/
def CDEvents.Process (js : encoding_json) (c : CDEvents) (msg : transport.JetstreamMsg) :
    Option GoError × List Call :=
  ((c.processBody js msg).1, (c.processBody js msg).2 ++ [Call.Ack msg])

end adapter

/-! ## `internal/translator/gitea.go` -/

namespace net_url

/-- Go `url.URL`, with the two fields the program reads. -/
structure URL where
  Host : String
  Path : String
deriving DecidableEq

end net_url

/-- The functions of Go `net/url` the program calls: `url.Parse(rawURL)` and
`url.JoinPath(base, elem)` with a single element. -/
structure net_url where
  Parse : String → Except GoError net_url.URL
  JoinPath : String → String → Except GoError String

namespace structs

/-- The calls `json.Unmarshal(data, &giteaEvent)` of the translators, one for each
target struct. -/
structure Decoder where
  GiteaPushEvent : Bytes → Except GoError GiteaPushEvent
  GiteaPullRequestEvent : Bytes → Except GoError GiteaPullRequestEvent
  GiteaCreateEvent : Bytes → Except GoError GiteaCreateEvent
  GiteaDeleteEvent : Bytes → Except GoError GiteaDeleteEvent

end structs

namespace translator

/-- The error `translator.ErrNoCommitsOnPushEvent`. -/
def ErrNoCommitsOnPushEvent : GoError :=
  ⟨"Push event contains no new commits, will not convert to a CD Event"⟩

/-- The error `translator.ErrMissingRequiredFields`. -/
def ErrMissingRequiredFields : GoError :=
  ⟨"Event payload is missing required fields, cannot convert to a CD Event"⟩

/-- The error `translator.ErrUnsupportedPRAction`. -/
def ErrUnsupportedPRAction : GoError :=
  ⟨"Unsupported Gitea Pull Request action, cannot convert to a CD Event"⟩

/-- The error `translator.ErrUnsupportedRefType`. -/
def ErrUnsupportedRefType : GoError :=
  ⟨"Unsupported Gitea Create ref type, cannot convert to a CD Event"⟩

/-- The text `fmt.Sprintf("%T", giteaEvent)`. -/
def typeName : structs.GiteaEvent → String
  | .Create _ => "structs.GiteaCreateEvent"
  | .Delete _ => "structs.GiteaDeleteEvent"
  | .Push _ => "structs.GiteaPushEvent"
  | .PullRequest _ => "structs.GiteaPullRequestEvent"

/-- The function `addGiteaEventAsCustomData`: the error it returns and the event
afterwards. -/
def addGiteaEventAsCustomData (giteaEvent : structs.GiteaEvent) (cdEvent : cdevents.CDEvent) :
    Option GoError × cdevents.CDEvent :=
  match cdEvent.SetCustomData "application/json"
      (.tagged (typeName giteaEvent) giteaEvent) with
  | (some err, cdEvent) => (some err, cdEvent)
  | (none, cdEvent) => (none, cdEvent)

/-- The type switch of `addSourcesFromRepositoryUrl`, which sets `rawRepoUrl`. -/
def rawRepoUrl : structs.GiteaEvent → String
  | .Create v => v.Repository.HtmlUrl
  | .Delete v => v.Repository.HtmlUrl
  | .Push v => v.Repository.HtmlUrl
  | .PullRequest v => v.Repository.HtmlUrl

/-- The function `addSourcesFromRepositoryUrl`: the error it returns and the event
afterwards. The source is set before `url.JoinPath` is called, so it stays set when
that call fails, and with it the subject source `SetSource` defaults to it. -/
def addSourcesFromRepositoryUrl (url : net_url) (giteaEvent : structs.GiteaEvent)
    (cdEvent : cdevents.CDEvent) : Option GoError × cdevents.CDEvent :=
  if rawRepoUrl giteaEvent = "" then
    (some ⟨"Missing required field: repository.html_url"⟩, cdEvent)
  else
    match url.Parse (rawRepoUrl giteaEvent) with
    | .error err => (some err, cdEvent)
    | .ok repoUrl =>
      match url.JoinPath repoUrl.Host repoUrl.Path with
      | .error err => (some err, cdEvent.SetSource repoUrl.Host)
      | .ok subjectSource =>
        (none, (cdEvent.SetSource repoUrl.Host).SetSubjectSource subjectSource)

/-- The method `(*GiteaPush).Translate`. -/
def GiteaPush.Translate (dec : structs.Decoder) (url : net_url) (data : Bytes) :
    Except GoError cdevents.CDEvent :=
  match dec.GiteaPushEvent data with
  | .error err => .error err
  | .ok giteaEvent =>
    match cdeventsv04.NewChangeMergedEvent with
    | .error err => .error err
    | .ok cdEvent =>
      match addSourcesFromRepositoryUrl url (.Push giteaEvent) cdEvent with
      | (some _, _) => .error ErrMissingRequiredFields
      | (none, cdEvent) =>
        if giteaEvent.TotalCommits = 0 then .error ErrNoCommitsOnPushEvent
        else if giteaEvent.After = "" then .error ErrMissingRequiredFields
        else
          let cdEvent := cdEvent.SetSubjectId giteaEvent.After
          if giteaEvent.Repository.FullName = "" then .error ErrMissingRequiredFields
          else
            let cdEvent := cdEvent.SetSubjectRepository giteaEvent.Repository.FullName
            match addGiteaEventAsCustomData (.Push giteaEvent) cdEvent with
            | (some err, _) => .error err
            | (none, cdEvent) => .ok cdEvent

/-- The `switch giteaEvent.Action` of `(*GiteaPullRequest).Translate`: the event the
matching case builds, or the error it returns. -/
def GiteaPullRequest.switchAction (giteaEvent : structs.GiteaPullRequestEvent) :
    Except GoError cdevents.CDEvent :=
  if giteaEvent.Action = "opened" then
    match cdeventsv04.NewChangeCreatedEvent with
    | .error err => .error err
    | .ok changeCreatedEvent =>
      let changeCreatedEvent :=
        changeCreatedEvent.SetSubjectRepository giteaEvent.Repository.FullName
      if giteaEvent.PullRequest.Title = "" then .error ErrMissingRequiredFields
      else .ok (changeCreatedEvent.SetSubjectDescription giteaEvent.PullRequest.Title)
  else if giteaEvent.Action = "closed" then
    match cdeventsv04.NewChangeMergedEvent with
    | .error err => .error err
    | .ok changeMergedEvent =>
      .ok (changeMergedEvent.SetSubjectRepository giteaEvent.Repository.FullName)
  else .error ErrUnsupportedPRAction

/-- The method `(*GiteaPullRequest).Translate`. The error of
`addSourcesFromRepositoryUrl` is not read; `fmt.Sprintf("pr-%d", id)` is `pr-`
followed by the decimal text of the id. -/
def GiteaPullRequest.Translate (dec : structs.Decoder) (url : net_url) (data : Bytes) :
    Except GoError cdevents.CDEvent :=
  match dec.GiteaPullRequestEvent data with
  | .error err => .error err
  | .ok giteaEvent =>
    if giteaEvent.Repository.FullName = "" then .error ErrMissingRequiredFields
    else if giteaEvent.Action = "" then .error ErrMissingRequiredFields
    else
      match GiteaPullRequest.switchAction giteaEvent with
      | .error err => .error err
      | .ok cdEvent =>
        let cdEvent := (addSourcesFromRepositoryUrl url (.PullRequest giteaEvent) cdEvent).2
        if giteaEvent.PullRequest.Id = 0 then .error ErrMissingRequiredFields
        else
          let cdEvent := cdEvent.SetSubjectId ("pr-" ++ toString giteaEvent.PullRequest.Id)
          match cdEvent.SetCustomData "application/json" (.event (.PullRequest giteaEvent)) with
          | (some err, _) => .error err
          | (none, cdEvent) =>
            match addGiteaEventAsCustomData (.PullRequest giteaEvent) cdEvent with
            | (some err, _) => .error err
            | (none, cdEvent) => .ok cdEvent

/-- The method `(*GiteaCreate).Translate`. The error of `addSourcesFromRepositoryUrl`
is not read. -/
def GiteaCreate.Translate (dec : structs.Decoder) (url : net_url) (data : Bytes) :
    Except GoError cdevents.CDEvent :=
  match dec.GiteaCreateEvent data with
  | .error err => .error err
  | .ok giteaEvent =>
    if giteaEvent.RefType = "branch" then
      match cdeventsv04.NewBranchCreatedEvent with
      | .error err => .error err
      | .ok branchCreatedEvent =>
        let cdEvent := branchCreatedEvent.SetSubjectRepository giteaEvent.Repository.FullName
        let cdEvent := (addSourcesFromRepositoryUrl url (.Create giteaEvent) cdEvent).2
        if giteaEvent.Ref = "" then .error ErrMissingRequiredFields
        else
          let cdEvent := cdEvent.SetSubjectId giteaEvent.Ref
          match addGiteaEventAsCustomData (.Create giteaEvent) cdEvent with
          | (some err, _) => .error err
          | (none, cdEvent) => .ok cdEvent
    else .error ErrUnsupportedRefType

/-- The method `(*GiteaDelete).Translate`. The error of `addSourcesFromRepositoryUrl`
is not read. -/
def GiteaDelete.Translate (dec : structs.Decoder) (url : net_url) (data : Bytes) :
    Except GoError cdevents.CDEvent :=
  match dec.GiteaDeleteEvent data with
  | .error err => .error err
  | .ok giteaEvent =>
    if giteaEvent.RefType = "branch" then
      match cdeventsv04.NewBranchDeletedEvent with
      | .error err => .error err
      | .ok branchDeletedEvent =>
        let cdEvent := branchDeletedEvent.SetSubjectRepository giteaEvent.Repository.FullName
        let cdEvent := (addSourcesFromRepositoryUrl url (.Delete giteaEvent) cdEvent).2
        if giteaEvent.Ref = "" then .error ErrMissingRequiredFields
        else
          let cdEvent := cdEvent.SetSubjectId giteaEvent.Ref
          match addGiteaEventAsCustomData (.Delete giteaEvent) cdEvent with
          | (some err, _) => .error err
          | (none, cdEvent) => .ok cdEvent
    else .error ErrUnsupportedRefType

/-- The value `&translator.GiteaPush{}` as a `translator.Webhook`. -/
def GiteaPush (dec : structs.Decoder) (url : net_url) : Webhook :=
  { Translate := GiteaPush.Translate dec url }

/-- The value `&translator.GiteaPullRequest{}` as a `translator.Webhook`. -/
def GiteaPullRequest (dec : structs.Decoder) (url : net_url) : Webhook :=
  { Translate := GiteaPullRequest.Translate dec url }

/-- The value `&translator.GiteaCreate{}` as a `translator.Webhook`. -/
def GiteaCreate (dec : structs.Decoder) (url : net_url) : Webhook :=
  { Translate := GiteaCreate.Translate dec url }

/-- The value `&translator.GiteaDelete{}` as a `translator.Webhook`. -/
def GiteaDelete (dec : structs.Decoder) (url : net_url) : Webhook :=
  { Translate := GiteaDelete.Translate dec url }

end translator

namespace main

/-- The table `translators` of `main.go`. -/
def translators (dec : structs.Decoder) (url : net_url) : List (String × translator.Webhook) :=
  [("gitea.push", translator.GiteaPush dec url),
   ("gitea.pull_request", translator.GiteaPullRequest dec url),
   ("gitea.create", translator.GiteaCreate dec url),
   ("gitea.delete", translator.GiteaDelete dec url)]

end main

/-! ## `internal/webhook/webhook.go` -/

namespace http

/-- The constant `http.MethodPost`. -/
def MethodPost : String := "POST"

/-- The constant `http.StatusOK`. -/
def StatusOK : Nat := 200

/-- The constant `http.StatusBadRequest`. -/
def StatusBadRequest : Nat := 400

/-- The constant `http.StatusUnsupportedMediaType`. -/
def StatusUnsupportedMediaType : Nat := 415

/-- The constant `http.StatusInternalServerError`. -/
def StatusInternalServerError : Nat := 500

/-- The constant `http.StatusNotImplemented`. -/
def StatusNotImplemented : Nat := 501

/-- A `*http.Request` as the handler reads it: the method, what `r.Header.Get(key)`
returns for a key (the empty string for a header that is not set), and what
`io.ReadAll(r.Body)` returns. -/
structure Request where
  Method : String
  Header : String → String
  Body : Except GoError Bytes

/-- What the handler has written to the `http.ResponseWriter` when it returns: the
status code and the body. -/
structure Response where
  StatusCode : Nat
  Body : String
deriving DecidableEq

/-- The response `http.Error(w, error, code)` writes: the code, and the text followed
by a newline. -/
def Error (error : String) (code : Nat) : Response :=
  { StatusCode := code, Body := error ++ "\n" }

end http

/-- The function of Go `mime` the program calls: `mime.ParseMediaType(v)`, as the
media type it returns or its error. -/
structure mime where
  ParseMediaType : String → Except GoError String

namespace webhook

/-- The handler `(*webhook).Handler(jsPublisher, subjectBase)` serving the request
`r`: the response it writes and the calls it makes. The subjects are
`fmt.Sprintf("%s.gitea.%s", subjectBase, giteaEventHeader)` and
`fmt.Sprintf("%s.unknown", subjectBase)`. -/
def Handler (js : encoding_json) (mime : mime) (jsPublisher : transport.JetstreamPublisher)
    (subjectBase : String) (r : http.Request) : http.Response × List Call :=
  if r.Method ≠ http.MethodPost then
    (http.Error "Method not supported" http.StatusNotImplemented, [])
  else
    let contentType := r.Header "Content-Type"
    if contentType = "" then
      (http.Error "Content-Type header not set" http.StatusBadRequest, [])
    else
      match mime.ParseMediaType contentType with
      | .error _ => (http.Error "Malformed Content-Type header" http.StatusBadRequest, [])
      | .ok mt =>
        if mt ≠ "application/json" then
          (http.Error "Content-Type header must be application/json"
            http.StatusUnsupportedMediaType, [])
        else
          let giteaEventHeader := r.Header "X-Gitea-Event"
          let subject :=
            if giteaEventHeader ≠ "" then subjectBase ++ ".gitea." ++ giteaEventHeader
            else subjectBase ++ ".unknown"
          match r.Body with
          | .error _ => (http.Error "Internal server error" http.StatusInternalServerError, [])
          | .ok data =>
            if data.length = 0 then
              (http.Error "Received empty body" http.StatusBadRequest, [])
            else
              match js.UnmarshalMap data with
              | .error _ => (http.Error "Payload is not valid json" http.StatusBadRequest, [])
              | .ok _ =>
                match jsPublisher.Publish subject data with
                | .error _ =>
                  (http.Error "Internal server error" http.StatusInternalServerError,
                    [Call.JetstreamPublish subject data])
                | .ok _ =>
                  ({ StatusCode := http.StatusOK, Body := "OK" },
                    [Call.JetstreamPublish subject data])

end webhook

/-! ## `internal/mocks/mocks.go` and the values of the repository's tests -/

namespace mocks

/-- The struct `mocks.JetstreamMsg`. -/
structure JetstreamMsg where
  subject : String
  data : Bytes
  ConsumerSeq : Nat
  StreamSeq : Nat
  NumDelivered : Nat
  Timestamp : Time

/-- The zero `time.Time` (January 1, year 1, UTC). -/
def zeroTime : Time := ⟨-62135596800000000000, 0⟩

/-- The constructor `mocks.NewJetstreamMsg`. -/
def NewJetstreamMsg (subject : String) (data : Bytes) : JetstreamMsg :=
  { subject := subject, data := data, ConsumerSeq := 0, StreamSeq := 0, NumDelivered := 0,
    Timestamp := zeroTime }

/-- The methods of `*mocks.JetstreamMsg`, as the `transport.JetstreamMsg` they make. -/
def JetstreamMsg.toMsg (m : JetstreamMsg) : transport.JetstreamMsg :=
  { Data := m.data
    Subject := m.subject
    Ack := none
    Metadata := .ok
      { Sequence := { Stream := m.StreamSeq, Consumer := m.ConsumerSeq }
        NumDelivered := m.NumDelivered
        Timestamp := m.Timestamp
        Stream := ""
        Consumer := "" } }

/-- The mock `mocks.WebhookTranslator`, set up to return `ret`. -/
def WebhookTranslator (ret : Except GoError cdevents.CDEvent) : translator.Webhook :=
  { Translate := fun _ => ret }

/-- The mock `mocks.CloudEventPublisher`, set up to return `ret`. -/
def CloudEventPublisher (ret : Option GoError) : transport.CloudEventPublisher :=
  { Publish := fun _ => ret }

/-- The mock `mocks.InvalidMessageHandler`, set up to return `ret`. -/
def InvalidMessageHandler (ret : Option GoError) : invalidmsg.Handler :=
  { Receive := fun _ _ => ret }

/-- The mock `mocks.JetstreamPublisher`, set up to return `ret`. -/
def JetstreamPublisher (ret : Except GoError jetstream.PubAck) : transport.JetstreamPublisher :=
  { Publish := fun _ _ => ret }

end mocks

namespace tests

/-- The payload `validMsgData` of `TestProcess`. -/
def validMsgData : Bytes := bytesOf "\x7b\"foo\": \"bar\"\x7d"

/-- The payload of `TestJetStreamInvalidMsgHandler`: a struct without exported fields
marshals to the empty object. -/
def invalidMsgContentBytes : Bytes := bytesOf "\x7b\x7d"

/-- The time `2025-02-23T09:30:00+01:00` of `TestJetStreamInvalidMsgHandler`. -/
def invalidMsgDeliveryTime : Time := ⟨1740299400000000000, 3600⟩

/-- The dead-letter record `TestJetStreamInvalidMsgHandler` expects. -/
def expectedHolder : invalidmsg.Holder :=
  { Subject := "webhooks.foo"
    Content := .object []
    StreamSeq := 123
    NumDelivered := 1
    Timestamp := invalidMsgDeliveryTime
    Error := "Could not deliver CD Event" }

/-- The JSON text of `expectedHolder`. -/
def expectedOutgoingMsgData : Bytes :=
  bytesOf ("\x7b\"subject\":\"webhooks.foo\",\"timestamp\":\"2025-02-23T09:30:00+01:00\"," ++
    "\"stream_seq\":123,\"num_delivered\":1,\"error\":\"Could not deliver CD Event\"," ++
    "\"content\":\x7b\x7d\x7d")

/-- What decoding `expectedOutgoingMsgData` into an `interface{}` gives. -/
def expectedOutgoingMsgValue : JSONValue :=
  .object [("subject", .string "webhooks.foo"),
    ("timestamp", .string "2025-02-23T09:30:00+01:00"),
    ("stream_seq", .number ⟨4638355772470722560⟩),
    ("num_delivered", .number ⟨4607182418800017408⟩),
    ("error", .string "Could not deliver CD Event"),
    ("content", .object [])]

/-- A stand-in for `encoding/json` that knows the documents of the repository's
tests and nothing else: any other input is a syntax error (the empty input the
unexpected end of the input), any other record is refused. -/
def json : encoding_json :=
  { Unmarshal := fun data =>
      if data = validMsgData then .ok (.object [("foo", .string "bar")])
      else if data = invalidMsgContentBytes then .ok (.object [])
      else if data = expectedOutgoingMsgData then .ok expectedOutgoingMsgValue
      else if data = [] then .error ⟨"unexpected end of JSON input"⟩
      else .error ⟨"invalid character looking for beginning of value"⟩
    MarshalHolder := fun h =>
      match h.Content with
      | .object [] =>
        if h.Subject = "webhooks.foo" ∧ h.Timestamp = invalidMsgDeliveryTime ∧
            h.StreamSeq = 123 ∧ h.NumDelivered = 1 ∧ h.Error = "Could not deliver CD Event"
        then (expectedOutgoingMsgData, none)
        else ([], some ⟨"json: unsupported value"⟩)
      | _ => ([], some ⟨"json: unsupported value"⟩) }

/-- The event `changeMergedEvent` of `TestProcess`: a fresh change-merged event. -/
def changeMergedEvent : cdevents.CDEvent :=
  { EventType := .ChangeMerged, Source := "", SubjectId := "", SubjectSource := "",
    SubjectRepository := none, SubjectDescription := "" }

/-- The message `webhookTestEventMsg` of `TestProcess`. -/
def webhookTestEventMsg : transport.JetstreamMsg :=
  (mocks.NewJetstreamMsg "webhook.test.event" validMsgData).toMsg

/-- The message `webhookTestUnknownMsg` of `TestProcess`. -/
def webhookTestUnknownMsg : transport.JetstreamMsg :=
  (mocks.NewJetstreamMsg "webhook.unknown" validMsgData).toMsg

/-- The message `invalidSubjectMsg` of `TestProcess`. -/
def invalidSubjectMsg : transport.JetstreamMsg :=
  (mocks.NewJetstreamMsg "invalid" validMsgData).toMsg

/-- The adapter `TestProcess` builds for one case: one translator registered under
`translatorSubject`, and mocks returning the values of the case. -/
def newAdapter (translatorSubject : String)
    (translated : Except GoError cdevents.CDEvent) (publisherError : Option GoError)
    (invalidMsgHandlerError : Option GoError) : adapter.CDEvents :=
  { publisher := mocks.CloudEventPublisher publisherError
    invMsgHandler := mocks.InvalidMessageHandler invalidMsgHandlerError
    translators := [(translatorSubject, mocks.WebhookTranslator translated)] }

/-- The message `invalidMsg` of `TestJetStreamInvalidMsgHandler`. -/
def invalidMsg : transport.JetstreamMsg :=
  ({ mocks.NewJetstreamMsg "webhooks.foo" invalidMsgContentBytes with
      StreamSeq := 123, NumDelivered := 1, Timestamp := invalidMsgDeliveryTime }).toMsg

/-- The handler of `TestJetStreamInvalidMsgHandler`: base `invalid`, a publisher that
succeeds. -/
def handler : invalidmsg.jetStreamInvalidMsgHandler :=
  { publisher := mocks.JetstreamPublisher (.ok { Stream := "mockStream", Sequence := 0 })
    outgoingSubjectBase := "invalid" }

end tests

/-! ## The values of `internal/translator/gitea_test.go` -/

namespace tests

/-- The payload `pushCommitPayload` of `TestGiteaPush`. -/
def pushCommitPayload : Bytes :=
  bytesOf ("\x7b\"ref\":\"refs/heads/main\",\"before\":\"a359287123178c5d05654864e80ab6f3b" ++
    "fc3d78a\",\"after\":\"9d7b2d18bf7f315c666a4b3607f47bd452e7c8d2\",\"total_commi" ++
    "ts\":1,\"repository\":\x7b\"full_name\":\"yoloco/project1\",\"html_url\":\"htt" ++
    "p://git.example.com/yoloco/project1\"\x7d\x7d")

/-- The payload `pushNewBranchPayload` of `TestGiteaPush`: no new commits. -/
def pushNewBranchPayload : Bytes :=
  bytesOf ("\x7b\"ref\":\"refs/heads/foo\",\"before\":\"0000000000000000000000000000000000" ++
    "000000\",\"after\":\"9d7b2d18bf7f315c666a4b3607f47bd452e7c8d2\",\"total_commit" ++
    "s\":0,\"repository\":\x7b\"full_name\":\"yoloco/project1\",\"html_url\":\"http" ++
    "://git.example.com/yoloco/project1\"\x7d\x7d")

/-- The payload `repoWithNoHtmlUrlPayload` of `TestGiteaPush`. -/
def repoWithNoHtmlUrlPayload : Bytes :=
  bytesOf ("\x7b\"after\":\"9d7b2d18bf7f315c666a4b3607f47bd452e7c8d2\",\"total_commits\":1" ++
    ",\"repository\":\x7b\"full_name\":\"yoloco/project1\"\x7d\x7d")

/-- The payload `repoWithNoFullNamePayload` of `TestGiteaPush`. -/
def repoWithNoFullNamePayload : Bytes :=
  bytesOf ("\x7b\"after\":\"9d7b2d18bf7f315c666a4b3607f47bd452e7c8d2\",\"total_commits\":1" ++
    ",\"repository\":\x7b\"html_url\":\"http://git.example.com/yoloco/project1\"" ++
    "\x7d\x7d")

/-- The payload `noAfterFieldPayload` of `TestGiteaPush`. -/
def noAfterFieldPayload : Bytes :=
  bytesOf ("\x7b\"total_commits\":1,\"repository\":\x7b\"full_name\":\"yoloco/project1\"," ++
    "\"html_url\":\"http://git.example.com/yoloco/project1\"\x7d\x7d")

/-- A push payload without `full_name` and with no new commits. -/
def noFullNameNoCommitsPayload : Bytes :=
  bytesOf ("\x7b\"after\":\"9d7b2d18bf7f315c666a4b3607f47bd452e7c8d2\",\"total_commits\":0" ++
    ",\"repository\":\x7b\"html_url\":\"http://git.example.com/yoloco/project1\"" ++
    "\x7d\x7d")

/-- A push payload without `html_url` and with no new commits. -/
def noHtmlUrlNoCommitsPayload : Bytes :=
  bytesOf ("\x7b\"after\":\"9d7b2d18bf7f315c666a4b3607f47bd452e7c8d2\",\"total_commits\":0" ++
    ",\"repository\":\x7b\"full_name\":\"yoloco/project1\"\x7d\x7d")

/-- A push payload without `after` and with no new commits. -/
def noAfterNoCommitsPayload : Bytes :=
  bytesOf ("\x7b\"total_commits\":0,\"repository\":\x7b\"full_name\":\"yoloco/project1\"," ++
    "\"html_url\":\"http://git.example.com/yoloco/project1\"\x7d\x7d")

/-- The payload `pushCommitPayload` for a server reached by address and port. -/
def pushFromAddressPayload : Bytes :=
  bytesOf ("\x7b\"ref\":\"refs/heads/main\",\"before\":\"a359287123178c5d05654864e80ab6f3b" ++
    "fc3d78a\",\"after\":\"9d7b2d18bf7f315c666a4b3607f47bd452e7c8d2\",\"total_commi" ++
    "ts\":1,\"repository\":\x7b\"full_name\":\"yoloco/project1\",\"html_url\":\"htt" ++
    "p://127.0.0.1:3000/yoloco/project1\"\x7d\x7d")

/-- The payload `pushNewBranchPayload`, with no commits, for a server reached by address
and port. -/
def pushNewBranchFromAddressPayload : Bytes :=
  bytesOf ("\x7b\"ref\":\"refs/heads/feature\",\"before\":\"0000000000000000000000000000000" ++
    "000000000\",\"after\":\"9d7b2d18bf7f315c666a4b3607f47bd452e7c8d2\",\"total_commi" ++
    "ts\":0,\"repository\":\x7b\"full_name\":\"yoloco/project1\",\"html_url\":\"htt" ++
    "p://127.0.0.1:3000/yoloco/project1\"\x7d\x7d")

/-- The payload `prOpenedPayload` of `TestGiteaPullRequest`. -/
def prOpenedPayload : Bytes :=
  bytesOf ("\x7b\"action\":\"opened\",\"pull_request\":\x7b\"id\":3,\"title\":\"Fix someth" ++
    "ing PR\"\x7d,\"repository\":\x7b\"full_name\":\"yoloco/project1\",\"html_url\"" ++
    ":\"http://git.example.com/yoloco/project1\"\x7d\x7d")

/-- The payload `prClosedPayload` of `TestGiteaPullRequest`. -/
def prClosedPayload : Bytes :=
  bytesOf ("\x7b\"action\":\"closed\",\"pull_request\":\x7b\"id\":3,\"title\":\"Fix someth" ++
    "ing PR\"\x7d,\"repository\":\x7b\"full_name\":\"yoloco/project1\",\"html_url\"" ++
    ":\"http://git.example.com/yoloco/project1\"\x7d\x7d")

/-- The payload `prWithUnsupportedAction` of `TestGiteaPullRequest`. -/
def prWithUnsupportedAction : Bytes :=
  bytesOf ("\x7b\"action\":\"unknown\",\"pull_request\":\x7b\"id\":3,\"title\":\"Fix somet" ++
    "hing PR\"\x7d,\"repository\":\x7b\"full_name\":\"yoloco/project1\",\"html_url" ++
    "\":\"http://git.example.com/yoloco/project1\"\x7d\x7d")

/-- The payload `noActionPayload` of `TestGiteaPullRequest`. -/
def noActionPayload : Bytes :=
  bytesOf ("\x7b\"pull_request\":\x7b\"id\":3,\"title\":\"Fix something PR\"\x7d,\"reposit" ++
    "ory\":\x7b\"full_name\":\"yoloco/project1\",\"html_url\":\"http://git.example." ++
    "com/yoloco/project1\"\x7d\x7d")

/-- The payload `prWithNoIdPayload` of `TestGiteaPullRequest`. -/
def prWithNoIdPayload : Bytes :=
  bytesOf ("\x7b\"action\":\"closed\",\"pull_request\":\x7b\"title\":\"Fix something PR\"" ++
    "\x7d,\"repository\":\x7b\"full_name\":\"yoloco/project1\",\"html_url\":\"http:" ++
    "//git.example.com/yoloco/project1\"\x7d\x7d")

/-- The payload `prWithNoTitlePayload` of `TestGiteaPullRequest`. -/
def prWithNoTitlePayload : Bytes :=
  bytesOf ("\x7b\"action\":\"opened\",\"pull_request\":\x7b\"id\":3\x7d,\"repository\":" ++
    "\x7b\"full_name\":\"yoloco/project1\",\"html_url\":\"http://git.example.com/yo" ++
    "loco/project1\"\x7d\x7d")

/-- The payload `prClosedPayload` without `full_name`. -/
def prWithNoFullNamePayload : Bytes :=
  bytesOf ("\x7b\"action\":\"closed\",\"pull_request\":\x7b\"id\":3,\"title\":\"Fix someth" ++
    "ing PR\"\x7d,\"repository\":\x7b\"html_url\":\"http://git.example.com/yoloco/p" ++
    "roject1\"\x7d\x7d")

/-- The payload `prClosedPayload` without `html_url`. -/
def prWithNoHtmlUrlPayload : Bytes :=
  bytesOf ("\x7b\"action\":\"closed\",\"pull_request\":\x7b\"id\":3,\"title\":\"Fix someth" ++
    "ing PR\"\x7d,\"repository\":\x7b\"full_name\":\"yoloco/project1\"\x7d\x7d")

/-- The payloads `branchCreatedPayload` of `TestGiteaCreate` and `branchDeletedPayload`
of `TestGiteaDelete`, which are the same text. -/
def branchPayload : Bytes :=
  bytesOf ("\x7b\"ref\":\"foo\",\"ref_type\":\"branch\",\"repository\":\x7b\"full_name\":" ++
    "\"yoloco/project1\",\"html_url\":\"http://git.example.com/yoloco/project1\"" ++
    "\x7d\x7d")

/-- The payload `noRefFieldPayload` of `TestGiteaCreate` and `TestGiteaDelete`. -/
def noRefFieldPayload : Bytes :=
  bytesOf ("\x7b\"ref_type\":\"branch\",\"repository\":\x7b\"full_name\":\"yoloco/project1" ++
    "\",\"html_url\":\"http://git.example.com/yoloco/project1\"\x7d\x7d")

/-- The payload `unsupportedRefTypePayload` of `TestGiteaCreate` and `TestGiteaDelete`. -/
def unsupportedRefTypePayload : Bytes :=
  bytesOf ("\x7b\"ref\":\"foo\",\"ref_type\":\"unknown\",\"repository\":\x7b\"full_name\":" ++
    "\"yoloco/project1\",\"html_url\":\"http://git.example.com/yoloco/project1\"" ++
    "\x7d\x7d")

/-- The payload `branchCreatedPayload` without `html_url`. -/
def branchWithNoHtmlUrlPayload : Bytes :=
  bytesOf ("\x7b\"ref\":\"foo\",\"ref_type\":\"branch\",\"repository\":\x7b\"full_name\":" ++
    "\"yoloco/project1\"\x7d\x7d")

/-- What `json.Unmarshal` into a `structs.GiteaPushEvent` gives for the push payloads. -/
def pushEvents : List (Bytes × structs.GiteaPushEvent) :=
  [
    (pushCommitPayload,
      { Ref := "refs/heads/main",
        Before := "a359287123178c5d05654864e80ab6f3bfc3d78a",
        After := "9d7b2d18bf7f315c666a4b3607f47bd452e7c8d2",
        TotalCommits := 1,
        Repository :=
          { FullName := "yoloco/project1",
            HtmlUrl := "http://git.example.com/yoloco/project1" } }),
    (pushNewBranchPayload,
      { Ref := "refs/heads/foo",
        Before := "0000000000000000000000000000000000000000",
        After := "9d7b2d18bf7f315c666a4b3607f47bd452e7c8d2",
        TotalCommits := 0,
        Repository :=
          { FullName := "yoloco/project1",
            HtmlUrl := "http://git.example.com/yoloco/project1" } }),
    (repoWithNoHtmlUrlPayload,
      { After := "9d7b2d18bf7f315c666a4b3607f47bd452e7c8d2",
        TotalCommits := 1,
        Repository := { FullName := "yoloco/project1" } }),
    (repoWithNoFullNamePayload,
      { After := "9d7b2d18bf7f315c666a4b3607f47bd452e7c8d2",
        TotalCommits := 1,
        Repository := { HtmlUrl := "http://git.example.com/yoloco/project1" } }),
    (noAfterFieldPayload,
      { TotalCommits := 1,
        Repository :=
          { FullName := "yoloco/project1",
            HtmlUrl := "http://git.example.com/yoloco/project1" } }),
    (noFullNameNoCommitsPayload,
      { After := "9d7b2d18bf7f315c666a4b3607f47bd452e7c8d2",
        TotalCommits := 0,
        Repository := { HtmlUrl := "http://git.example.com/yoloco/project1" } }),
    (noHtmlUrlNoCommitsPayload,
      { After := "9d7b2d18bf7f315c666a4b3607f47bd452e7c8d2",
        TotalCommits := 0,
        Repository := { FullName := "yoloco/project1" } }),
    (noAfterNoCommitsPayload,
      { TotalCommits := 0,
        Repository :=
          { FullName := "yoloco/project1",
            HtmlUrl := "http://git.example.com/yoloco/project1" } }),
    (pushFromAddressPayload,
      { Ref := "refs/heads/main",
        Before := "a359287123178c5d05654864e80ab6f3bfc3d78a",
        After := "9d7b2d18bf7f315c666a4b3607f47bd452e7c8d2",
        TotalCommits := 1,
        Repository :=
          { FullName := "yoloco/project1",
            HtmlUrl := "http://127.0.0.1:3000/yoloco/project1" } }),
    (pushNewBranchFromAddressPayload,
      { Ref := "refs/heads/feature",
        Before := "0000000000000000000000000000000000000000",
        After := "9d7b2d18bf7f315c666a4b3607f47bd452e7c8d2",
        TotalCommits := 0,
        Repository :=
          { FullName := "yoloco/project1",
            HtmlUrl := "http://127.0.0.1:3000/yoloco/project1" } }) ]

/-- What `json.Unmarshal` into a `structs.GiteaPullRequestEvent` gives for the pull
request payloads. -/
def pullRequestEvents : List (Bytes × structs.GiteaPullRequestEvent) :=
  [
    (prOpenedPayload,
      { Action := "opened",
        PullRequest := { Id := 3, Title := "Fix something PR" },
        Repository :=
          { FullName := "yoloco/project1",
            HtmlUrl := "http://git.example.com/yoloco/project1" } }),
    (prClosedPayload,
      { Action := "closed",
        PullRequest := { Id := 3, Title := "Fix something PR" },
        Repository :=
          { FullName := "yoloco/project1",
            HtmlUrl := "http://git.example.com/yoloco/project1" } }),
    (prWithUnsupportedAction,
      { Action := "unknown",
        PullRequest := { Id := 3, Title := "Fix something PR" },
        Repository :=
          { FullName := "yoloco/project1",
            HtmlUrl := "http://git.example.com/yoloco/project1" } }),
    (noActionPayload,
      { PullRequest := { Id := 3, Title := "Fix something PR" },
        Repository :=
          { FullName := "yoloco/project1",
            HtmlUrl := "http://git.example.com/yoloco/project1" } }),
    (prWithNoIdPayload,
      { Action := "closed",
        PullRequest := { Title := "Fix something PR" },
        Repository :=
          { FullName := "yoloco/project1",
            HtmlUrl := "http://git.example.com/yoloco/project1" } }),
    (prWithNoTitlePayload,
      { Action := "opened",
        PullRequest := { Id := 3 },
        Repository :=
          { FullName := "yoloco/project1",
            HtmlUrl := "http://git.example.com/yoloco/project1" } }),
    (prWithNoFullNamePayload,
      { Action := "closed",
        PullRequest := { Id := 3, Title := "Fix something PR" },
        Repository := { HtmlUrl := "http://git.example.com/yoloco/project1" } }),
    (prWithNoHtmlUrlPayload,
      { Action := "closed",
        PullRequest := { Id := 3, Title := "Fix something PR" },
        Repository := { FullName := "yoloco/project1" } }) ]

/-- What `json.Unmarshal` into a `structs.GiteaCreateEvent` gives for the branch
payloads. -/
def createEvents : List (Bytes × structs.GiteaCreateEvent) :=
  [
    (branchPayload,
      { Ref := "foo",
        RefType := "branch",
        Repository :=
          { FullName := "yoloco/project1",
            HtmlUrl := "http://git.example.com/yoloco/project1" } }),
    (noRefFieldPayload,
      { RefType := "branch",
        Repository :=
          { FullName := "yoloco/project1",
            HtmlUrl := "http://git.example.com/yoloco/project1" } }),
    (unsupportedRefTypePayload,
      { Ref := "foo",
        RefType := "unknown",
        Repository :=
          { FullName := "yoloco/project1",
            HtmlUrl := "http://git.example.com/yoloco/project1" } }),
    (branchWithNoHtmlUrlPayload,
      { Ref := "foo",
        RefType := "branch",
        Repository := { FullName := "yoloco/project1" } }) ]

/-- What `json.Unmarshal` into a `structs.GiteaDeleteEvent` gives for the branch
payloads. -/
def deleteEvents : List (Bytes × structs.GiteaDeleteEvent) :=
  [
    (branchPayload,
      { Ref := "foo",
        RefType := "branch",
        Repository :=
          { FullName := "yoloco/project1",
            HtmlUrl := "http://git.example.com/yoloco/project1" } }),
    (noRefFieldPayload,
      { RefType := "branch",
        Repository :=
          { FullName := "yoloco/project1",
            HtmlUrl := "http://git.example.com/yoloco/project1" } }),
    (unsupportedRefTypePayload,
      { Ref := "foo",
        RefType := "unknown",
        Repository :=
          { FullName := "yoloco/project1",
            HtmlUrl := "http://git.example.com/yoloco/project1" } }),
    (branchWithNoHtmlUrlPayload,
      { Ref := "foo",
        RefType := "branch",
        Repository := { FullName := "yoloco/project1" } }) ]

/-- A stand-in for `json.Unmarshal` at the event structs that knows the payloads above
and nothing else: any other input is a syntax error. -/
def decoder : structs.Decoder :=
  { GiteaPushEvent := fun data =>
      match pushEvents.lookup data with
      | some v => .ok v
      | none => .error ⟨"invalid character looking for beginning of value"⟩
    GiteaPullRequestEvent := fun data =>
      match pullRequestEvents.lookup data with
      | some v => .ok v
      | none => .error ⟨"invalid character looking for beginning of value"⟩
    GiteaCreateEvent := fun data =>
      match createEvents.lookup data with
      | some v => .ok v
      | none => .error ⟨"invalid character looking for beginning of value"⟩
    GiteaDeleteEvent := fun data =>
      match deleteEvents.lookup data with
      | some v => .ok v
      | none => .error ⟨"invalid character looking for beginning of value"⟩ }

/-- A stand-in for `net/url` that knows the two repository URLs of the payloads above
and nothing else. As in Go, `url.Parse` keeps the port in `Host`, and `url.JoinPath`
parses its base as a URL of its own, so it refuses the base `127.0.0.1:3000`, whose
first path segment has a colon. -/
def url : net_url :=
  { Parse := fun rawURL =>
      if rawURL = "http://git.example.com/yoloco/project1" then
        .ok { Host := "git.example.com", Path := "/yoloco/project1" }
      else if rawURL = "http://127.0.0.1:3000/yoloco/project1" then
        .ok { Host := "127.0.0.1:3000", Path := "/yoloco/project1" }
      else .error ⟨"parse: net/url: invalid URL"⟩
    JoinPath := fun base elem =>
      if base = "git.example.com" ∧ elem = "/yoloco/project1" then
        .ok "git.example.com/yoloco/project1"
      else if base = "127.0.0.1:3000" then
        .error ⟨"parse \"127.0.0.1:3000\": first path segment in URL cannot contain colon"⟩
      else .error ⟨"parse: net/url: invalid URL"⟩ }

/-- The stand-in `tests.json`, which also decodes `pushNewBranchPayload` into an
`interface{}`. -/
def giteaJSON : encoding_json :=
  { json with
    Unmarshal := fun data =>
      if data = pushNewBranchPayload then
        .ok (.object [("ref", .string "refs/heads/foo"),
          ("before", .string "0000000000000000000000000000000000000000"),
          ("after", .string "9d7b2d18bf7f315c666a4b3607f47bd452e7c8d2"),
          ("total_commits", .number ⟨0⟩),
          ("repository", .object [("full_name", .string "yoloco/project1"),
            ("html_url", .string "http://git.example.com/yoloco/project1")])])
      else json.Unmarshal data }

/-- The message the webhook handler queues for `pushNewBranchPayload` under the base
`webhooks`. -/
def pushNewBranchMsg : transport.JetstreamMsg :=
  (mocks.NewJetstreamMsg "webhooks.gitea.push" pushNewBranchPayload).toMsg

/-- An adapter with the table of `main.go` and mocks for the rest. -/
def giteaAdapter : adapter.CDEvents :=
  { publisher := mocks.CloudEventPublisher none
    invMsgHandler := mocks.InvalidMessageHandler none
    translators := main.translators decoder url }

/-- The time `10000-01-01T00:00:00Z`, which `time.Time.MarshalJSON` refuses: the year
is outside of the range 0 to 9999. -/
def year10000 : Time := ⟨253402300800000000000, 0⟩

/-- The message `invalidMsg` of `TestJetStreamInvalidMsgHandler`, delivered at
`year10000`. -/
def unmarshalableMsg : transport.JetstreamMsg :=
  ({ mocks.NewJetstreamMsg "webhooks.foo" invalidMsgContentBytes with
      StreamSeq := 123, NumDelivered := 1, Timestamp := year10000 }).toMsg

end tests

/-! ## The values of `internal/webhook/webhook_test.go` -/

namespace tests

/-- A stand-in for `mime.ParseMediaType` that knows the two header values of
`TestWebhookHandler` and the media type `text/plain`. -/
def mediaTypes : mime :=
  { ParseMediaType := fun v =>
      if v = "application/json" then .ok "application/json"
      else if v = "text/plain" then .ok "text/plain"
      else .error ⟨"mime: invalid media parameter"⟩ }

/-- The body `null`. -/
def nullBody : Bytes := bytesOf "null"

/-- The body `[]`, an empty array. -/
def arrayBody : Bytes := bytesOf "[]"

/-- The body `notvalidjson` of `TestWebhookHandler`. -/
def notValidJSONBody : Bytes := bytesOf "notvalidjson"

/-- The stand-in `tests.json`, which also decodes `null` and `[]` into an
`interface{}`. -/
def webhookJSON : encoding_json :=
  { json with
    Unmarshal := fun data =>
      if data = nullBody then .ok .null
      else if data = arrayBody then .ok (.array [])
      else json.Unmarshal data }

/-- The request `TestWebhookHandler` builds: the method, the `Content-Type` header,
the `X-Gitea-Event` header (empty strings for headers that are not set) and the
body. -/
def newRequest (method contentType giteaEvent : String) (body : Bytes) : http.Request :=
  { Method := method
    Header := fun key =>
      if key = "Content-Type" then contentType
      else if key = "X-Gitea-Event" then giteaEvent
      else ""
    Body := .ok body }

/-- The publisher `mockJS` of `TestWebhookHandler`. -/
def mockJS : transport.JetstreamPublisher :=
  mocks.JetstreamPublisher (.ok { Stream := "mockStream", Sequence := 0 })

/-- A message with an array as payload, on the subject of `webhookTestEventMsg`. -/
def arrayMsg : transport.JetstreamMsg :=
  (mocks.NewJetstreamMsg "webhook.test.event" arrayBody).toMsg

end tests

/-! ## Lemmas on `strings.Split` and `strings.Join` -/

namespace strings

theorem splitChars_of_not_mem (sep : Char) (s : List Char) (h : sep ∉ s) :
    splitChars sep s = (s, []) := by
  induction s with
  | nil => rfl
  | cons c cs ih =>
    have hc : c ≠ sep := fun e => h (by simp [e])
    have hcs : sep ∉ cs := fun e => h (by simp [e])
    simp [splitChars, hc, ih hcs]

theorem splitChars_append_sep (sep : Char) (a k : List Char) :
    splitChars sep (a ++ sep :: k) =
      ((splitChars sep a).1,
        (splitChars sep a).2 ++ (splitChars sep k).1 :: (splitChars sep k).2) := by
  induction a with
  | nil => simp [splitChars]
  | cons c cs ih =>
    by_cases hc : c = sep
    · simp [splitChars, hc, ih]
    · simp [splitChars, hc, ih]

theorem splitChars_snd_eq_nil_iff (sep : Char) (s : List Char) :
    (splitChars sep s).2 = [] ↔ sep ∉ s := by
  induction s with
  | nil => simp [splitChars]
  | cons c cs ih =>
    by_cases hc : c = sep
    · simp [splitChars, hc]
    · have hc2 : ¬ sep = c := fun e => hc e.symm
      simp [splitChars, hc, hc2, ih]

theorem splitChars_flatten (sep : Char) (s : List Char) :
    (splitChars sep s).1 ++ ((splitChars sep s).2.map (fun q => sep :: q)).flatten = s := by
  induction s with
  | nil => simp [splitChars]
  | cons c cs ih =>
    by_cases hc : c = sep
    · simpa [splitChars, hc] using ih
    · simpa [splitChars, hc] using ih

theorem not_mem_splitChars_fst (sep : Char) (s : List Char) : sep ∉ (splitChars sep s).1 := by
  induction s with
  | nil => simp [splitChars]
  | cons c cs ih =>
    by_cases hc : c = sep
    · simp [splitChars, hc]
    · have hc2 : ¬ sep = c := fun e => hc e.symm
      simp [splitChars, hc, hc2, ih]

theorem mk_append_mk (a b : List Char) : String.mk a ++ String.mk b = String.mk (a ++ b) := rfl

theorem Join_map_mk (sep : Char) (ps : List (List Char)) (p : List Char) :
    Join (String.mk p :: ps.map String.mk) (String.mk [sep]) =
      String.mk (p ++ (ps.map (fun q => sep :: q)).flatten) := by
  induction ps generalizing p with
  | nil => simp [Join]
  | cons q qs ih =>
    simp only [List.map_cons, Join, List.flatten_cons]
    rw [ih q, mk_append_mk, mk_append_mk]
    simp

/-- Joining the segments of a string with the separator gives the string back. -/
theorem Join_Split (s : String) (sep : Char) : Join (Split s sep) (String.mk [sep]) = s := by
  unfold Split
  rw [Join_map_mk, splitChars_flatten]

/-- The segments of `a ++ sep ++ k` are those of `a` followed by those of `k`. -/
theorem Split_append_sep (a k : String) (sep : Char) :
    Split (a ++ String.mk [sep] ++ k) sep = Split a sep ++ Split k sep := by
  unfold Split
  have h : (a ++ String.mk [sep] ++ k).data = a.data ++ sep :: k.data := by
    simp [String.data_append]
  rw [h, splitChars_append_sep]
  simp

/-- A string has a single segment exactly when the separator does not occur in it. -/
theorem length_Split_lt_two_iff (s : String) (sep : Char) :
    (Split s sep).length < 2 ↔ sep ∉ s.data := by
  unfold Split
  rw [← splitChars_snd_eq_nil_iff sep s.data]
  cases (splitChars sep s.data).2 <;> simp

/-- A string without the separator is its own single segment. -/
theorem Split_of_not_mem (s : String) (sep : Char) (h : sep ∉ s.data) : Split s sep = [s] := by
  unfold Split
  rw [splitChars_of_not_mem sep s.data h]
  rfl

end strings

/-! ## Lemmas on recorded calls and on the registry -/

namespace Call

theorem acks_append (a b : List Call) : acks (a ++ b) = acks a ++ acks b := by
  induction a with
  | nil => rfl
  | cons x xs ih => cases x <;> simp [acks, ih]

end Call

theorem lookup_eq_none_of_no_key {β : Type} (key : String) (l : List (String × β))
    (h : ∀ p ∈ l, p.1 ≠ key) : l.lookup key = none := by
  induction l with
  | nil => rfl
  | cons p ps ih =>
    obtain ⟨k, t⟩ := p
    have hk : k ≠ key := h (k, t) (by simp)
    have hne : (key == k) = false := by simpa using fun e => hk e.symm
    simp only [List.lookup, hne]
    exact ih (fun q hq => h q (by simp [hq]))

theorem mem_of_lookup_eq_some {β : Type} (key : String) (l : List (String × β)) (t : β)
    (h : l.lookup key = some t) : (key, t) ∈ l := by
  induction l with
  | nil => simp [List.lookup] at h
  | cons p ps ih =>
    obtain ⟨k, u⟩ := p
    by_cases hk : key = k
    · subst hk
      simp [List.lookup] at h
      simp [h]
    · have hne : (key == k) = false := by simpa using hk
      simp only [List.lookup, hne] at h
      exact List.mem_cons_of_mem _ (ih h)

/-! ## The dispatcher -/

namespace adapter

/-- C1: whatever the message and whatever the collaborators return (metadata or
payload failure, any of the four escalations with the escalator succeeding or
failing, or success), `Process` calls `Ack` on the message exactly once. -/
theorem Process_acks_exactly_once (js : encoding_json) (c : CDEvents)
    (msg : transport.JetstreamMsg) :
    Call.acks (c.Process js msg).2 = [msg] := by
  have hbody : Call.acks (c.processBody js msg).2 = [] := by
    unfold CDEvents.processBody
    repeat' split
    all_goals simp [Call.acks]
  simp [CDEvents.Process, Call.acks_append, hbody, Call.acks]

/-- C2: with extractable metadata and a payload that passes the check, a subject with
fewer than two segments (that is, one without a dot) is escalated exactly once, with
the message and `ErrInvalidSubject`; no translator and no publisher is invoked. -/
theorem Process_invalid_subject (js : encoding_json) (c : CDEvents)
    (msg : transport.JetstreamMsg) (md : jetstream.MsgMetadata)
    (v : Option (List (String × JSONValue)))
    (hmd : msg.Metadata = .ok md) (hv : js.UnmarshalMap msg.Data = .ok v) :
    ((subjectParts msg).length < 2 ↔ '.' ∉ msg.Subject.data) ∧
    ((subjectParts msg).length < 2 →
      Call.escalations (c.Process js msg).2 = [(msg, ErrInvalidSubject)] ∧
      Call.translations (c.Process js msg).2 = [] ∧
      Call.publishes (c.Process js msg).2 = []) := by
  refine ⟨strings.length_Split_lt_two_iff msg.Subject '.', fun hparts => ?_⟩
  simp only [CDEvents.Process, CDEvents.processBody, hmd, hv, hparts, if_true]
  split <;> simp [Call.escalations, Call.translations, Call.publishes]

/-- The case `send to invalid msg handler on less than 2 subject parts` of `TestProcess`. -/
theorem Process_invalid_subject_witness :
    tests.invalidSubjectMsg.Metadata = .ok
      { Sequence := { Stream := 0, Consumer := 0 }, NumDelivered := 0,
        Timestamp := mocks.zeroTime, Stream := "", Consumer := "" } ∧
    tests.json.UnmarshalMap tests.invalidSubjectMsg.Data =
      .ok (some [("foo", .string "bar")]) ∧
    (subjectParts tests.invalidSubjectMsg).length < 2 ∧
    Call.escalations ((tests.newAdapter "test.event" (.ok tests.changeMergedEvent)
      none none).Process tests.json tests.invalidSubjectMsg).2 =
        [(tests.invalidSubjectMsg, ErrInvalidSubject)] ∧
    Call.translations ((tests.newAdapter "test.event" (.ok tests.changeMergedEvent)
      none none).Process tests.json tests.invalidSubjectMsg).2 = [] ∧
    Call.publishes ((tests.newAdapter "test.event" (.ok tests.changeMergedEvent)
      none none).Process tests.json tests.invalidSubjectMsg).2 = [] :=
  ⟨rfl, rfl, by decide,
    (Process_invalid_subject tests.json
      (tests.newAdapter "test.event" (.ok tests.changeMergedEvent) none none)
      tests.invalidSubjectMsg _ _ rfl rfl).2 (by decide)⟩

/-- C3: with extractable metadata, a payload that passes the check and a subject of
at least two segments, a routing key that no entry of the registry has as its key
(keys are compared for equality as strings, so a key differing in case is no match)
is escalated exactly once, with the message and `ErrNoTranslator`; no translator and
no publisher is invoked. -/
theorem Process_no_translator (js : encoding_json) (c : CDEvents)
    (msg : transport.JetstreamMsg) (md : jetstream.MsgMetadata)
    (v : Option (List (String × JSONValue)))
    (hmd : msg.Metadata = .ok md) (hv : js.UnmarshalMap msg.Data = .ok v)
    (hparts : 2 ≤ (subjectParts msg).length)
    (hkey : ∀ entry ∈ c.translators, entry.1 ≠ eventSubject (subjectParts msg)) :
    Call.escalations (c.Process js msg).2 = [(msg, ErrNoTranslator)] ∧
    Call.translations (c.Process js msg).2 = [] ∧
    Call.publishes (c.Process js msg).2 = [] := by
  have hparts2 : ¬ (subjectParts msg).length < 2 := by omega
  have hlook := lookup_eq_none_of_no_key (eventSubject (subjectParts msg)) c.translators hkey
  simp only [CDEvents.Process, CDEvents.processBody, hmd, hv, hparts2, if_false, hlook]
  split <;> simp [Call.escalations, Call.translations, Call.publishes]

/-- The message `webhook.test.event` against a registry whose only key is `Test.Event`. -/
theorem Process_no_translator_witness :
    tests.webhookTestEventMsg.Metadata = .ok
      { Sequence := { Stream := 0, Consumer := 0 }, NumDelivered := 0,
        Timestamp := mocks.zeroTime, Stream := "", Consumer := "" } ∧
    tests.json.UnmarshalMap tests.webhookTestEventMsg.Data =
      .ok (some [("foo", .string "bar")]) ∧
    2 ≤ (subjectParts tests.webhookTestEventMsg).length ∧
    eventSubject (subjectParts tests.webhookTestEventMsg) = "test.event" ∧
    (Call.escalations ((tests.newAdapter "Test.Event" (.ok tests.changeMergedEvent)
      none none).Process tests.json tests.webhookTestEventMsg).2 =
        [(tests.webhookTestEventMsg, ErrNoTranslator)] ∧
    Call.translations ((tests.newAdapter "Test.Event" (.ok tests.changeMergedEvent)
      none none).Process tests.json tests.webhookTestEventMsg).2 = [] ∧
    Call.publishes ((tests.newAdapter "Test.Event" (.ok tests.changeMergedEvent)
      none none).Process tests.json tests.webhookTestEventMsg).2 = []) :=
  ⟨rfl, rfl, by decide, by decide,
    Process_no_translator tests.json
      (tests.newAdapter "Test.Event" (.ok tests.changeMergedEvent) none none)
      tests.webhookTestEventMsg _ _ rfl rfl (by decide)
      (by
        intro entry hentry
        simp only [tests.newAdapter, List.mem_singleton] at hentry
        rw [hentry]
        decide)⟩

/-- C4: with extractable metadata, a payload that passes the check and a subject of
at least two segments whose routing key is registered, `Process` makes exactly one
translator call: on the translator the registry holds under that routing key, with
the payload of the message. -/
theorem Process_translates_once (js : encoding_json) (c : CDEvents)
    (msg : transport.JetstreamMsg) (md : jetstream.MsgMetadata)
    (v : Option (List (String × JSONValue))) (t : translator.Webhook)
    (hmd : msg.Metadata = .ok md) (hv : js.UnmarshalMap msg.Data = .ok v)
    (hparts : 2 ≤ (subjectParts msg).length)
    (hreg : c.translators.lookup (eventSubject (subjectParts msg)) = some t) :
    (eventSubject (subjectParts msg), t) ∈ c.translators ∧
    Call.translations (c.Process js msg).2 = [(t, msg.Data)] := by
  refine ⟨mem_of_lookup_eq_some _ _ _ hreg, ?_⟩
  have hparts2 : ¬ (subjectParts msg).length < 2 := by omega
  simp only [CDEvents.Process, CDEvents.processBody, hmd, hv, hparts2, if_false, hreg]
  repeat' split
  all_goals simp [Call.translations]

/-- The case `translates message data and publishes translated event` of `TestProcess`:
the translator call. -/
theorem Process_translates_once_witness :
    tests.webhookTestEventMsg.Metadata = .ok
      { Sequence := { Stream := 0, Consumer := 0 }, NumDelivered := 0,
        Timestamp := mocks.zeroTime, Stream := "", Consumer := "" } ∧
    tests.json.UnmarshalMap tests.webhookTestEventMsg.Data =
      .ok (some [("foo", .string "bar")]) ∧
    2 ≤ (subjectParts tests.webhookTestEventMsg).length ∧
    (tests.newAdapter "test.event" (.ok tests.changeMergedEvent) none none).translators.lookup
      (eventSubject (subjectParts tests.webhookTestEventMsg)) =
        some (mocks.WebhookTranslator (.ok tests.changeMergedEvent)) ∧
    (eventSubject (subjectParts tests.webhookTestEventMsg),
      mocks.WebhookTranslator (.ok tests.changeMergedEvent)) ∈
        (tests.newAdapter "test.event" (.ok tests.changeMergedEvent) none none).translators ∧
    Call.translations ((tests.newAdapter "test.event" (.ok tests.changeMergedEvent)
      none none).Process tests.json tests.webhookTestEventMsg).2 =
        [(mocks.WebhookTranslator (.ok tests.changeMergedEvent), tests.validMsgData)] :=
  ⟨rfl, rfl, by decide, rfl,
    Process_translates_once tests.json
      (tests.newAdapter "test.event" (.ok tests.changeMergedEvent) none none)
      tests.webhookTestEventMsg _ _ _ rfl rfl (by decide) rfl⟩

/-- C5: when the message is routed to a translator and that translator returns an
error, whatever the error, `Process` escalates exactly once, with the message and
`ErrTranslationFailed`, and never invokes the publisher. -/
theorem Process_translation_failed (js : encoding_json) (c : CDEvents)
    (msg : transport.JetstreamMsg) (md : jetstream.MsgMetadata)
    (v : Option (List (String × JSONValue))) (t : translator.Webhook) (e : GoError)
    (hmd : msg.Metadata = .ok md) (hv : js.UnmarshalMap msg.Data = .ok v)
    (hparts : 2 ≤ (subjectParts msg).length)
    (hreg : c.translators.lookup (eventSubject (subjectParts msg)) = some t)
    (hfail : t.Translate msg.Data = .error e) :
    Call.escalations (c.Process js msg).2 = [(msg, ErrTranslationFailed)] ∧
    Call.publishes (c.Process js msg).2 = [] := by
  have hparts2 : ¬ (subjectParts msg).length < 2 := by omega
  simp only [CDEvents.Process, CDEvents.processBody, hmd, hv, hparts2, if_false, hreg, hfail]
  split <;> simp [Call.escalations, Call.publishes]

/-- The case `send to invalid msg handler when translator returns error` of
`TestProcess`. -/
theorem Process_translation_failed_witness :
    tests.webhookTestEventMsg.Metadata = .ok
      { Sequence := { Stream := 0, Consumer := 0 }, NumDelivered := 0,
        Timestamp := mocks.zeroTime, Stream := "", Consumer := "" } ∧
    tests.json.UnmarshalMap tests.webhookTestEventMsg.Data =
      .ok (some [("foo", .string "bar")]) ∧
    2 ≤ (subjectParts tests.webhookTestEventMsg).length ∧
    (Call.escalations ((tests.newAdapter "test.event"
      (.error ⟨"something went wrong in translating the event"⟩)
      none none).Process tests.json tests.webhookTestEventMsg).2 =
        [(tests.webhookTestEventMsg, ErrTranslationFailed)] ∧
    Call.publishes ((tests.newAdapter "test.event"
      (.error ⟨"something went wrong in translating the event"⟩)
      none none).Process tests.json tests.webhookTestEventMsg).2 = []) :=
  ⟨rfl, rfl, by decide,
    Process_translation_failed tests.json
      (tests.newAdapter "test.event"
        (.error ⟨"something went wrong in translating the event"⟩) none none)
      tests.webhookTestEventMsg _ _
      (mocks.WebhookTranslator (.error ⟨"something went wrong in translating the event"⟩))
      ⟨"something went wrong in translating the event"⟩ rfl rfl (by decide) rfl rfl⟩

/-- C6: when translation succeeds and the publisher returns an error, `Process` has
made exactly one publish attempt, with the translated event, and escalates exactly
once, with the message and `ErrPublishFailed`. -/
theorem Process_publish_failed (js : encoding_json) (c : CDEvents)
    (msg : transport.JetstreamMsg) (md : jetstream.MsgMetadata)
    (v : Option (List (String × JSONValue))) (t : translator.Webhook)
    (cdEvent : cdevents.CDEvent) (e : GoError)
    (hmd : msg.Metadata = .ok md) (hv : js.UnmarshalMap msg.Data = .ok v)
    (hparts : 2 ≤ (subjectParts msg).length)
    (hreg : c.translators.lookup (eventSubject (subjectParts msg)) = some t)
    (htr : t.Translate msg.Data = .ok cdEvent)
    (hfail : c.publisher.Publish cdEvent = some e) :
    Call.escalations (c.Process js msg).2 = [(msg, ErrPublishFailed)] ∧
    Call.publishes (c.Process js msg).2 = [cdEvent] ∧
    (c.Process js msg).2 = [Call.Translate t msg.Data, Call.Publish cdEvent,
      Call.Receive msg ErrPublishFailed, Call.Ack msg] := by
  have hparts2 : ¬ (subjectParts msg).length < 2 := by omega
  simp only [CDEvents.Process, CDEvents.processBody, hmd, hv, hparts2, if_false, hreg, htr,
    hfail]
  split <;> simp [Call.escalations, Call.publishes]

/-- The case `send to invalid msg handler when publish returns error` of `TestProcess`. -/
theorem Process_publish_failed_witness :
    tests.webhookTestEventMsg.Metadata = .ok
      { Sequence := { Stream := 0, Consumer := 0 }, NumDelivered := 0,
        Timestamp := mocks.zeroTime, Stream := "", Consumer := "" } ∧
    tests.json.UnmarshalMap tests.webhookTestEventMsg.Data =
      .ok (some [("foo", .string "bar")]) ∧
    2 ≤ (subjectParts tests.webhookTestEventMsg).length ∧
    (Call.escalations ((tests.newAdapter "test.event" (.ok tests.changeMergedEvent)
      (some ⟨"something went wrong when publishing the event"⟩)
      none).Process tests.json tests.webhookTestEventMsg).2 =
        [(tests.webhookTestEventMsg, ErrPublishFailed)] ∧
    Call.publishes ((tests.newAdapter "test.event" (.ok tests.changeMergedEvent)
      (some ⟨"something went wrong when publishing the event"⟩)
      none).Process tests.json tests.webhookTestEventMsg).2 = [tests.changeMergedEvent] ∧
    ((tests.newAdapter "test.event" (.ok tests.changeMergedEvent)
      (some ⟨"something went wrong when publishing the event"⟩)
      none).Process tests.json tests.webhookTestEventMsg).2 =
        [Call.Translate (mocks.WebhookTranslator (.ok tests.changeMergedEvent))
            tests.webhookTestEventMsg.Data,
          Call.Publish tests.changeMergedEvent,
          Call.Receive tests.webhookTestEventMsg ErrPublishFailed,
          Call.Ack tests.webhookTestEventMsg]) :=
  ⟨rfl, rfl, by decide,
    Process_publish_failed tests.json
      (tests.newAdapter "test.event" (.ok tests.changeMergedEvent)
        (some ⟨"something went wrong when publishing the event"⟩) none)
      tests.webhookTestEventMsg _ _
      (mocks.WebhookTranslator (.ok tests.changeMergedEvent)) tests.changeMergedEvent
      ⟨"something went wrong when publishing the event"⟩ rfl rfl (by decide) rfl rfl rfl⟩

/-- C7: when translation and publishing both succeed, `Process` publishes exactly the
event the translator returned, exactly once, makes no escalation call and returns
no error. -/
theorem Process_success (js : encoding_json) (c : CDEvents)
    (msg : transport.JetstreamMsg) (md : jetstream.MsgMetadata)
    (v : Option (List (String × JSONValue))) (t : translator.Webhook)
    (cdEvent : cdevents.CDEvent)
    (hmd : msg.Metadata = .ok md) (hv : js.UnmarshalMap msg.Data = .ok v)
    (hparts : 2 ≤ (subjectParts msg).length)
    (hreg : c.translators.lookup (eventSubject (subjectParts msg)) = some t)
    (htr : t.Translate msg.Data = .ok cdEvent)
    (hpub : c.publisher.Publish cdEvent = none) :
    Call.publishes (c.Process js msg).2 = [cdEvent] ∧
    Call.escalations (c.Process js msg).2 = [] ∧
    (c.Process js msg).1 = none := by
  have hparts2 : ¬ (subjectParts msg).length < 2 := by omega
  simp [CDEvents.Process, CDEvents.processBody, hmd, hv, hparts2, hreg, htr, hpub,
    Call.escalations, Call.publishes]

/-- The case `translates message data and publishes translated event` of `TestProcess`:
the publish call and the result. -/
theorem Process_success_witness :
    tests.webhookTestEventMsg.Metadata = .ok
      { Sequence := { Stream := 0, Consumer := 0 }, NumDelivered := 0,
        Timestamp := mocks.zeroTime, Stream := "", Consumer := "" } ∧
    tests.json.UnmarshalMap tests.webhookTestEventMsg.Data =
      .ok (some [("foo", .string "bar")]) ∧
    2 ≤ (subjectParts tests.webhookTestEventMsg).length ∧
    (Call.publishes ((tests.newAdapter "test.event" (.ok tests.changeMergedEvent)
      none none).Process tests.json tests.webhookTestEventMsg).2 = [tests.changeMergedEvent] ∧
    Call.escalations ((tests.newAdapter "test.event" (.ok tests.changeMergedEvent)
      none none).Process tests.json tests.webhookTestEventMsg).2 = [] ∧
    ((tests.newAdapter "test.event" (.ok tests.changeMergedEvent)
      none none).Process tests.json tests.webhookTestEventMsg).1 = none) :=
  ⟨rfl, rfl, by decide,
    Process_success tests.json
      (tests.newAdapter "test.event" (.ok tests.changeMergedEvent) none none)
      tests.webhookTestEventMsg _ _
      (mocks.WebhookTranslator (.ok tests.changeMergedEvent)) tests.changeMergedEvent
      rfl rfl (by decide) rfl rfl rfl⟩

/-- For a base that contains a dot, the routing key the dispatcher computes from
`b + "." + k` is never `k`: it keeps the segments of the base after the first. -/
theorem eventSubject_ne_of_dotted_base (msg : transport.JetstreamMsg) (b k : String)
    (hsubject : msg.Subject = b ++ "." ++ k) (hbase : '.' ∈ b.data) :
    eventSubject (subjectParts msg) ≠ k := by
  intro hk
  have hsplit : subjectParts msg = strings.Split b '.' ++ strings.Split k '.' := by
    unfold subjectParts
    rw [hsubject]
    exact strings.Split_append_sep b k '.'
  have hjoin : strings.Join (subjectParts msg) "." = b ++ "." ++ k := by
    unfold subjectParts
    rw [← hsubject]
    exact strings.Join_Split msg.Subject '.'
  have hfirst : '.' ∉ (strings.splitChars '.' b.data).1 := strings.not_mem_splitChars_fst '.' b.data
  have hshape : ∃ q qs, subjectParts msg =
      String.mk (strings.splitChars '.' b.data).1 :: q :: qs := by
    rw [hsplit]
    unfold strings.Split
    cases (strings.splitChars '.' b.data).2 with
    | nil => exact ⟨_, _, rfl⟩
    | cons r rs => exact ⟨_, _, rfl⟩
  obtain ⟨q, qs, hparts⟩ := hshape
  rw [hparts] at hk hjoin
  simp only [eventSubject, List.drop_succ_cons, List.drop_zero] at hk
  simp only [strings.Join] at hjoin
  rw [hk] at hjoin
  have hdata := congrArg String.data hjoin
  simp only [String.data_append] at hdata
  have hb : (strings.splitChars '.' b.data).1 = b.data :=
    List.append_cancel_right (List.append_cancel_right hdata)
  rw [hb] at hfirst
  exact hfirst hbase

/-- C8, as stated, fails for an inbound base that itself contains a dot: from the
subject `dev.webhooks.gitea.push` the dispatcher computes the routing key
`webhooks.gitea.push`, not `gitea.push`. -/
theorem eventSubject_dotted_base :
    eventSubject (strings.Split ("dev.webhooks" ++ "." ++ "gitea.push") '.') =
      "webhooks.gitea.push" ∧
    eventSubject (strings.Split ("dev.webhooks" ++ "." ++ "gitea.push") '.') ≠
      "gitea.push" := by
  decide

/-- C8, amended: for every inbound base that contains no dot and every routing key
`k`, a message on the subject `b + "." + k` has at least two segments and the routing
key the dispatcher computes from it (first segment dropped, the rest joined with
dots) is `k`. -/
theorem eventSubject_of_base (msg : transport.JetstreamMsg) (b k : String)
    (hsubject : msg.Subject = b ++ "." ++ k) (hbase : '.' ∉ b.data) :
    2 ≤ (subjectParts msg).length ∧ eventSubject (subjectParts msg) = k := by
  have hsplit : subjectParts msg = b :: strings.Split k '.' := by
    unfold subjectParts
    rw [hsubject]
    have h := strings.Split_append_sep b k '.'
    rw [strings.Split_of_not_mem b '.' hbase] at h
    exact h
  rw [hsplit]
  refine ⟨?_, ?_⟩
  · simp [strings.Split]
  · simpa [eventSubject] using strings.Join_Split k '.'

/-- The subject `webhook.test.event` of `TestProcess`: base `webhook`, key `test.event`. -/
theorem eventSubject_of_base_witness :
    tests.webhookTestEventMsg.Subject = "webhook" ++ "." ++ "test.event" ∧
    '.' ∉ "webhook".data ∧
    2 ≤ (subjectParts tests.webhookTestEventMsg).length ∧
    eventSubject (subjectParts tests.webhookTestEventMsg) = "test.event" :=
  ⟨by decide, by decide,
    eventSubject_of_base tests.webhookTestEventMsg "webhook" "test.event"
      (by decide) (by decide)⟩

end adapter

/-! ## The dead-letter escalator -/

namespace invalidmsg

/-- C9: `Receive` makes at most one publish call, and makes one exactly when the
metadata is extractable and the payload decodes; the subject of that call is the base,
a dot, and the subject of the message unchanged, so that its segments are those of
the base followed by every segment of the original subject. -/
theorem Receive_publishes_once_verbatim (js : encoding_json) (i : jetStreamInvalidMsgHandler)
    (invalidMsg : transport.JetstreamMsg) (originalErr : GoError) :
    (Call.jetstreamPublishes (i.Receive js invalidMsg originalErr).2 = [] ∨
      ∃ data, Call.jetstreamPublishes (i.Receive js invalidMsg originalErr).2 =
        [(i.outgoingSubjectBase ++ "." ++ invalidMsg.Subject, data)]) ∧
    (Call.jetstreamPublishes (i.Receive js invalidMsg originalErr).2 ≠ [] ↔
      (∃ md, invalidMsg.Metadata = .ok md) ∧ (∃ v, js.Unmarshal invalidMsg.Data = .ok v)) ∧
    strings.Split (i.outgoingSubjectBase ++ "." ++ invalidMsg.Subject) '.' =
      strings.Split i.outgoingSubjectBase '.' ++ strings.Split invalidMsg.Subject '.' := by
  refine ⟨?_, ?_, strings.Split_append_sep i.outgoingSubjectBase invalidMsg.Subject '.'⟩
  · unfold jetStreamInvalidMsgHandler.Receive
    cases invalidMsg.Metadata with
    | error e => simp [Call.jetstreamPublishes]
    | ok md =>
      cases js.Unmarshal invalidMsg.Data with
      | error e => simp [Call.jetstreamPublishes]
      | ok v =>
        right
        simp only []
        split <;> simp [Call.jetstreamPublishes]
  · unfold jetStreamInvalidMsgHandler.Receive
    cases hmd : invalidMsg.Metadata with
    | error e => simp [Call.jetstreamPublishes]
    | ok md =>
      cases hv : js.Unmarshal invalidMsg.Data with
      | error e => simp [Call.jetstreamPublishes]
      | ok v =>
        simp only [ne_eq, exists_eq', Except.ok.injEq, and_self, iff_true]
        split <;> simp [Call.jetstreamPublishes]

/-- For a message with extractable metadata and a decodable payload, and any error, the
data `Receive` publishes is what `json.Marshal` returns for the record made of the
subject of the message, the timestamp, stream sequence and delivery count of its
metadata, the text of the error and the decoded payload, whether or not `json.Marshal`
also returned an error; and when it returned that data without error, decoding it
gives, by the round trip of `encoding/json`, an object whose `content` is the decoded
payload. -/
theorem Receive_publishes_record (js : encoding_json) (i : jetStreamInvalidMsgHandler)
    (invalidMsg : transport.JetstreamMsg) (originalErr : GoError)
    (md : jetstream.MsgMetadata) (v : JSONValue)
    (hmd : invalidMsg.Metadata = .ok md) (hv : js.Unmarshal invalidMsg.Data = .ok v)
    (hround : js.ContentRoundTrip) :
    Call.jetstreamPublishes (i.Receive js invalidMsg originalErr).2 =
      [(i.outgoingSubjectBase ++ "." ++ invalidMsg.Subject,
        (js.MarshalHolder
          { Subject := invalidMsg.Subject
            Timestamp := md.Timestamp
            StreamSeq := md.Sequence.Stream
            NumDelivered := md.NumDelivered
            Error := originalErr.Error
            Content := v }).1)] ∧
    ((js.MarshalHolder
          { Subject := invalidMsg.Subject
            Timestamp := md.Timestamp
            StreamSeq := md.Sequence.Stream
            NumDelivered := md.NumDelivered
            Error := originalErr.Error
            Content := v }).2 = none →
      ∃ fields,
        js.Unmarshal (js.MarshalHolder
          { Subject := invalidMsg.Subject
            Timestamp := md.Timestamp
            StreamSeq := md.Sequence.Stream
            NumDelivered := md.NumDelivered
            Error := originalErr.Error
            Content := v }).1 = .ok (.object fields) ∧
        fields.lookup "content" = some v) := by
  refine ⟨?_, fun hser => hround invalidMsg.Data _ _ hv (Prod.ext rfl hser)⟩
  simp only [jetStreamInvalidMsgHandler.Receive, hmd, hv]
  split <;> simp [Call.jetstreamPublishes]

/-- The case of `TestJetStreamInvalidMsgHandler`. -/
theorem Receive_publishes_record_witness :
    tests.invalidMsg.Metadata = .ok
      { Sequence := { Stream := 123, Consumer := 0 }, NumDelivered := 1,
        Timestamp := tests.invalidMsgDeliveryTime, Stream := "", Consumer := "" } ∧
    tests.json.Unmarshal tests.invalidMsg.Data = .ok (.object []) ∧
    tests.json.ContentRoundTrip ∧
    tests.json.MarshalHolder tests.expectedHolder = (tests.expectedOutgoingMsgData, none) ∧
    Call.jetstreamPublishes
      (tests.handler.Receive tests.json tests.invalidMsg ⟨"Could not deliver CD Event"⟩).2 =
        [("invalid.webhooks.foo", tests.expectedOutgoingMsgData)] ∧
    ∃ fields, tests.json.Unmarshal tests.expectedOutgoingMsgData = .ok (.object fields) ∧
      fields.lookup "content" = some (.object []) :=
  have hround : tests.json.ContentRoundTrip := by
    intro payload h data _ hm
    simp only [tests.json] at hm
    split at hm
    · split at hm
      · rename_i hc _
        obtain ⟨rfl, -⟩ := Prod.mk.inj hm
        exact ⟨_, rfl, by rw [hc]; rfl⟩
      · simp at hm
    · simp at hm
  have h := Receive_publishes_record tests.json tests.handler tests.invalidMsg
    ⟨"Could not deliver CD Event"⟩ _ _ rfl rfl hround
  ⟨rfl, rfl, hround, rfl, h.1, h.2 rfl⟩

end invalidmsg

/-! ## The dead-letter escalator and the error of `json.Marshal` -/

namespace invalidmsg

/-- The error of `json.Marshal` never reaches the caller of `Receive`: when the
publisher accepts the call, `Receive` returns nil and has published the bytes
`json.Marshal` returned next to its error. -/
theorem Receive_of_marshal_error (js : encoding_json) (i : jetStreamInvalidMsgHandler)
    (invalidMsg : transport.JetstreamMsg) (originalErr err : GoError)
    (md : jetstream.MsgMetadata) (v : JSONValue) (d : Bytes) (ack : jetstream.PubAck)
    (hmd : invalidMsg.Metadata = .ok md) (hv : js.Unmarshal invalidMsg.Data = .ok v)
    (hser : js.MarshalHolder
      { Subject := invalidMsg.Subject
        Timestamp := md.Timestamp
        StreamSeq := md.Sequence.Stream
        NumDelivered := md.NumDelivered
        Error := originalErr.Error
        Content := v } = (d, some err))
    (hpub : i.publisher.Publish (i.outgoingSubjectBase ++ "." ++ invalidMsg.Subject) d =
      .ok ack) :
    i.Receive js invalidMsg originalErr =
      (none, [Call.JetstreamPublish (i.outgoingSubjectBase ++ "." ++ invalidMsg.Subject) d]) := by
  simp only [jetStreamInvalidMsgHandler.Receive, hmd, hv, hser, hpub]

/-- The error of the publish call is the error `Receive` returns, and the call is not
repeated. -/
theorem Receive_of_publish_error (js : encoding_json) (i : jetStreamInvalidMsgHandler)
    (invalidMsg : transport.JetstreamMsg) (originalErr err : GoError)
    (md : jetstream.MsgMetadata) (v : JSONValue)
    (hmd : invalidMsg.Metadata = .ok md) (hv : js.Unmarshal invalidMsg.Data = .ok v)
    (hpub : i.publisher.Publish (i.outgoingSubjectBase ++ "." ++ invalidMsg.Subject)
      (js.MarshalHolder
        { Subject := invalidMsg.Subject
          Timestamp := md.Timestamp
          StreamSeq := md.Sequence.Stream
          NumDelivered := md.NumDelivered
          Error := originalErr.Error
          Content := v }).1 = .error err) :
    (i.Receive js invalidMsg originalErr).1 = some err ∧
    (Call.jetstreamPublishes (i.Receive js invalidMsg originalErr).2).length = 1 := by
  simp only [jetStreamInvalidMsgHandler.Receive, hmd, hv, hpub]
  simp [Call.jetstreamPublishes]

/-- C11 fails on the code: for a message delivered in the year 10000, whose record
`json.Marshal` refuses, `Receive` publishes the empty data to the dead-letter subject
and returns nil, where the claim has the error returned and nothing published. -/
theorem Receive_marshal_error_published :
    tests.unmarshalableMsg.Metadata = .ok
      { Sequence := { Stream := 123, Consumer := 0 }, NumDelivered := 1,
        Timestamp := tests.year10000, Stream := "", Consumer := "" } ∧
    tests.json.Unmarshal tests.unmarshalableMsg.Data = .ok (.object []) ∧
    tests.json.MarshalHolder
      { Subject := "webhooks.foo"
        Timestamp := tests.year10000
        StreamSeq := 123
        NumDelivered := 1
        Error := "Could not deliver CD Event"
        Content := .object [] } = ([], some ⟨"json: unsupported value"⟩) ∧
    tests.handler.Receive tests.json tests.unmarshalableMsg ⟨"Could not deliver CD Event"⟩ =
      (none, [Call.JetstreamPublish "invalid.webhooks.foo" []]) :=
  ⟨rfl, rfl, rfl, rfl⟩

/-- C10 fails on the code: the message of the handler test, delivered in the year 10000,
has extractable metadata and a decodable payload, `json.Marshal` returns an error and
no data for its record, and the data `Receive` publishes is that empty data: not a
JSON serialization of the record, and refused by `json.Unmarshal`, so that no content
is read back from it. -/
theorem Receive_publishes_undecodable :
    tests.unmarshalableMsg.Subject = "webhooks.foo" ∧
    tests.unmarshalableMsg.Metadata = .ok
      { Sequence := { Stream := 123, Consumer := 0 }, NumDelivered := 1,
        Timestamp := tests.year10000, Stream := "", Consumer := "" } ∧
    tests.json.Unmarshal tests.unmarshalableMsg.Data = .ok (.object []) ∧
    (∃ err, tests.json.MarshalHolder
      { Subject := "webhooks.foo"
        Timestamp := tests.year10000
        StreamSeq := 123
        NumDelivered := 1
        Error := "Could not deliver CD Event"
        Content := .object [] } = ([], some err)) ∧
    Call.jetstreamPublishes
      (tests.handler.Receive tests.json tests.unmarshalableMsg
        ⟨"Could not deliver CD Event"⟩).2 = [("invalid.webhooks.foo", [])] ∧
    tests.json.Unmarshal [] = .error ⟨"unexpected end of JSON input"⟩ :=
  ⟨rfl, rfl, rfl, ⟨_, rfl⟩, rfl, rfl⟩

end invalidmsg

/-! ## The reference translators -/

namespace translator

theorem addSources_of_empty (url : net_url) (giteaEvent : structs.GiteaEvent)
    (cdEvent : cdevents.CDEvent) (hurl : rawRepoUrl giteaEvent = "") :
    addSourcesFromRepositoryUrl url giteaEvent cdEvent =
      (some ⟨"Missing required field: repository.html_url"⟩, cdEvent) := by
  simp [addSourcesFromRepositoryUrl, hurl]

theorem addSources_of_derivable (url : net_url) (giteaEvent : structs.GiteaEvent)
    (cdEvent : cdevents.CDEvent) (u : net_url.URL) (subjectSource : String)
    (hurl : rawRepoUrl giteaEvent ≠ "") (hparse : url.Parse (rawRepoUrl giteaEvent) = .ok u)
    (hjoin : url.JoinPath u.Host u.Path = .ok subjectSource) :
    addSourcesFromRepositoryUrl url giteaEvent cdEvent =
      (none, (cdEvent.SetSource u.Host).SetSubjectSource subjectSource) := by
  simp [addSourcesFromRepositoryUrl, hurl, hparse, hjoin]

theorem addSources_keeps_type (url : net_url) (giteaEvent : structs.GiteaEvent)
    (cdEvent : cdevents.CDEvent) :
    (addSourcesFromRepositoryUrl url giteaEvent cdEvent).2.EventType = cdEvent.EventType := by
  unfold addSourcesFromRepositoryUrl
  repeat' split
  all_goals rfl

theorem addSources_keeps_repository (url : net_url) (giteaEvent : structs.GiteaEvent)
    (cdEvent : cdevents.CDEvent) :
    (addSourcesFromRepositoryUrl url giteaEvent cdEvent).2.SubjectRepository =
      cdEvent.SubjectRepository := by
  unfold addSourcesFromRepositoryUrl
  repeat' split
  all_goals rfl

set_option maxRecDepth 100000 in
/-- C12 fails on the code: the URL `http://127.0.0.1:3000/yoloco/project1` is not empty
and `url.Parse` accepts it, all other fields of the payload are those of the push test,
and `GiteaPush.Translate` returns no event and the error `ErrMissingRequiredFields`,
because `addSourcesFromRepositoryUrl` hands the bare host `127.0.0.1:3000` to
`url.JoinPath` as a base, which refuses it. -/
theorem GiteaPush_Translate_address_and_port :
    tests.decoder.GiteaPushEvent tests.pushFromAddressPayload = .ok
      { Ref := "refs/heads/main",
        Before := "a359287123178c5d05654864e80ab6f3bfc3d78a",
        After := "9d7b2d18bf7f315c666a4b3607f47bd452e7c8d2",
        TotalCommits := 1,
        Repository :=
          { FullName := "yoloco/project1",
            HtmlUrl := "http://127.0.0.1:3000/yoloco/project1" } } ∧
    tests.url.Parse "http://127.0.0.1:3000/yoloco/project1" =
      .ok { Host := "127.0.0.1:3000", Path := "/yoloco/project1" } ∧
    GiteaPush.Translate tests.decoder tests.url tests.pushFromAddressPayload =
      .error ErrMissingRequiredFields :=
  ⟨rfl, rfl, rfl⟩

/-- The success path of the push translator: for every push payload with a non-empty
`after`, `total_commits` other than 0, a non-empty `repository.full_name` and a
non-empty `repository.html_url` that `url.Parse` accepts and whose host and path
`url.JoinPath` accepts,
`GiteaPush.Translate` returns a change-merged event whose subject id is `after`, whose
subject repository id is `full_name`, whose source is the host of the URL and whose
subject source is what `url.JoinPath` returns for the host and the path. -/
theorem GiteaPush_Translate_ok (dec : structs.Decoder) (url : net_url) (data : Bytes)
    (giteaEvent : structs.GiteaPushEvent) (u : net_url.URL) (subjectSource : String)
    (hdec : dec.GiteaPushEvent data = .ok giteaEvent)
    (hafter : giteaEvent.After ≠ "") (hcommits : giteaEvent.TotalCommits ≠ 0)
    (hname : giteaEvent.Repository.FullName ≠ "")
    (hurl : giteaEvent.Repository.HtmlUrl ≠ "")
    (hparse : url.Parse giteaEvent.Repository.HtmlUrl = .ok u)
    (hjoin : url.JoinPath u.Host u.Path = .ok subjectSource) :
    ∃ cdEvent, GiteaPush.Translate dec url data = .ok cdEvent ∧
      cdEvent.EventType = .ChangeMerged ∧
      cdEvent.SubjectId = giteaEvent.After ∧
      cdEvent.SubjectRepository = some giteaEvent.Repository.FullName ∧
      cdEvent.Source = u.Host ∧
      cdEvent.SubjectSource = subjectSource := by
  have hsrc := addSources_of_derivable url (.Push giteaEvent)
    (cdeventsv04.newEvent .ChangeMerged) u subjectSource hurl hparse hjoin
  simp only [GiteaPush.Translate, hdec, cdeventsv04.NewChangeMergedEvent, hsrc]
  simp [hcommits, hafter, hname, addGiteaEventAsCustomData, cdevents.CDEvent.SetCustomData,
    cdevents.CDEvent.SetSubjectId, cdevents.CDEvent.SetSubjectRepository,
    cdevents.CDEvent.SetSource, cdevents.CDEvent.SetSubjectSource, cdeventsv04.newEvent]

set_option maxRecDepth 100000 in
/-- The case `returns ChangeMergedEvent on push to main branch payload` of
`TestGiteaPush`. -/
theorem GiteaPush_Translate_ok_witness :
    tests.decoder.GiteaPushEvent tests.pushCommitPayload = .ok
      { Ref := "refs/heads/main",
        Before := "a359287123178c5d05654864e80ab6f3bfc3d78a",
        After := "9d7b2d18bf7f315c666a4b3607f47bd452e7c8d2",
        TotalCommits := 1,
        Repository :=
          { FullName := "yoloco/project1",
            HtmlUrl := "http://git.example.com/yoloco/project1" } } ∧
    tests.url.Parse "http://git.example.com/yoloco/project1" =
      .ok { Host := "git.example.com", Path := "/yoloco/project1" } ∧
    tests.url.JoinPath "git.example.com" "/yoloco/project1" =
      .ok "git.example.com/yoloco/project1" ∧
    ∃ cdEvent, GiteaPush.Translate tests.decoder tests.url tests.pushCommitPayload = .ok cdEvent ∧
      cdEvent.EventType = .ChangeMerged ∧
      cdEvent.SubjectId = "9d7b2d18bf7f315c666a4b3607f47bd452e7c8d2" ∧
      cdEvent.SubjectRepository = some "yoloco/project1" ∧
      cdEvent.Source = "git.example.com" ∧
      cdEvent.SubjectSource = "git.example.com/yoloco/project1" :=
  ⟨rfl, rfl, rfl,
    GiteaPush_Translate_ok tests.decoder tests.url tests.pushCommitPayload _
      { Host := "git.example.com", Path := "/yoloco/project1" }
      "git.example.com/yoloco/project1" rfl (by decide) (by decide) (by decide) (by decide)
      rfl rfl⟩

/-- The no-commits path of the push translator: for every push payload with
`total_commits` 0 whose `repository.html_url` is not empty, accepted by `url.Parse`
and, host and path, accepted by `url.JoinPath`, whatever its other fields, `GiteaPush.Translate` returns no event and the error
`ErrNoCommitsOnPushEvent`; and when the dispatcher routes a message with that payload
to this translator, it escalates the message, with `ErrTranslationFailed`, and
publishes nothing. -/
theorem GiteaPush_Translate_no_commits (dec : structs.Decoder) (url : net_url) (data : Bytes)
    (giteaEvent : structs.GiteaPushEvent) (u : net_url.URL) (subjectSource : String)
    (hdec : dec.GiteaPushEvent data = .ok giteaEvent)
    (hcommits : giteaEvent.TotalCommits = 0)
    (hurl : giteaEvent.Repository.HtmlUrl ≠ "")
    (hparse : url.Parse giteaEvent.Repository.HtmlUrl = .ok u)
    (hjoin : url.JoinPath u.Host u.Path = .ok subjectSource) :
    GiteaPush.Translate dec url data = .error ErrNoCommitsOnPushEvent ∧
    ∀ (js : encoding_json) (c : adapter.CDEvents) (msg : transport.JetstreamMsg)
      (md : jetstream.MsgMetadata) (v : Option (List (String × JSONValue))),
      msg.Data = data → msg.Metadata = .ok md → js.UnmarshalMap msg.Data = .ok v →
      2 ≤ (adapter.subjectParts msg).length →
      c.translators.lookup (adapter.eventSubject (adapter.subjectParts msg)) =
        some (GiteaPush dec url) →
      Call.escalations (c.Process js msg).2 = [(msg, adapter.ErrTranslationFailed)] ∧
      Call.publishes (c.Process js msg).2 = [] := by
  have hsrc := addSources_of_derivable url (.Push giteaEvent)
    (cdeventsv04.newEvent .ChangeMerged) u subjectSource hurl hparse hjoin
  have htr : GiteaPush.Translate dec url data = .error ErrNoCommitsOnPushEvent := by
    simp only [GiteaPush.Translate, hdec, cdeventsv04.NewChangeMergedEvent, hsrc]
    simp [hcommits]
  refine ⟨htr, ?_⟩
  intro js c msg md v hdata hmd hv hparts hreg
  have hparts2 : ¬ (adapter.subjectParts msg).length < 2 := by omega
  have htr2 : (GiteaPush dec url).Translate msg.Data = .error ErrNoCommitsOnPushEvent := by
    rw [hdata]
    exact htr
  simp only [adapter.CDEvents.Process, adapter.CDEvents.processBody, hmd, hv, hparts2,
    if_false, hreg, htr2]
  split <;> simp [Call.escalations, Call.publishes]

set_option maxRecDepth 100000 in
/-- The case `error on push to new branch with no new commits` of `TestGiteaPush`, and
the same payload queued on `webhooks.gitea.push` for an adapter with the table of
`main.go`. -/
theorem GiteaPush_Translate_no_commits_witness :
    tests.decoder.GiteaPushEvent tests.pushNewBranchPayload = .ok
      { Ref := "refs/heads/foo",
        Before := "0000000000000000000000000000000000000000",
        After := "9d7b2d18bf7f315c666a4b3607f47bd452e7c8d2",
        TotalCommits := 0,
        Repository :=
          { FullName := "yoloco/project1",
            HtmlUrl := "http://git.example.com/yoloco/project1" } } ∧
    tests.url.Parse "http://git.example.com/yoloco/project1" =
      .ok { Host := "git.example.com", Path := "/yoloco/project1" } ∧
    tests.url.JoinPath "git.example.com" "/yoloco/project1" =
      .ok "git.example.com/yoloco/project1" ∧
    GiteaPush.Translate tests.decoder tests.url tests.pushNewBranchPayload =
      .error ErrNoCommitsOnPushEvent ∧
    tests.giteaAdapter.translators.lookup
      (adapter.eventSubject (adapter.subjectParts tests.pushNewBranchMsg)) =
        some (GiteaPush tests.decoder tests.url) ∧
    Call.escalations (tests.giteaAdapter.Process tests.giteaJSON tests.pushNewBranchMsg).2 =
      [(tests.pushNewBranchMsg, adapter.ErrTranslationFailed)] ∧
    Call.publishes (tests.giteaAdapter.Process tests.giteaJSON tests.pushNewBranchMsg).2 = [] :=
  have h := GiteaPush_Translate_no_commits tests.decoder tests.url tests.pushNewBranchPayload _
    { Host := "git.example.com", Path := "/yoloco/project1" }
    "git.example.com/yoloco/project1" rfl rfl (by decide) rfl rfl
  ⟨rfl, rfl, rfl, h.1, rfl,
    h.2 tests.giteaJSON tests.giteaAdapter tests.pushNewBranchMsg _ _ rfl rfl rfl
      (by decide) rfl⟩

set_option maxRecDepth 100000 in
/-- C13 fails on the code: a push payload with `total_commits` 0, a non-empty `after`, a
non-empty `repository.full_name` and the URL `http://127.0.0.1:3000/yoloco/project1`,
which is not empty and which `url.Parse` accepts, fails with
`ErrMissingRequiredFields`, not with `ErrNoCommitsOnPushEvent`:
`addSourcesFromRepositoryUrl` hands the bare host `127.0.0.1:3000` to `url.JoinPath`
as a base, which refuses it, before `total_commits` is read. -/
theorem GiteaPush_Translate_no_commits_address_and_port :
    tests.decoder.GiteaPushEvent tests.pushNewBranchFromAddressPayload = .ok
      { Ref := "refs/heads/feature",
        Before := "0000000000000000000000000000000000000000",
        After := "9d7b2d18bf7f315c666a4b3607f47bd452e7c8d2",
        TotalCommits := 0,
        Repository :=
          { FullName := "yoloco/project1",
            HtmlUrl := "http://127.0.0.1:3000/yoloco/project1" } } ∧
    tests.url.Parse "http://127.0.0.1:3000/yoloco/project1" =
      .ok { Host := "127.0.0.1:3000", Path := "/yoloco/project1" } ∧
    tests.url.JoinPath "127.0.0.1:3000" "/yoloco/project1" =
      .error ⟨"parse \"127.0.0.1:3000\": first path segment in URL cannot contain colon"⟩ ∧
    GiteaPush.Translate tests.decoder tests.url tests.pushNewBranchFromAddressPayload =
      .error ErrMissingRequiredFields ∧
    ErrMissingRequiredFields ≠ ErrNoCommitsOnPushEvent :=
  ⟨rfl, rfl, rfl, rfl, by decide⟩

/-- C15: for every push payload with `total_commits` other than 0 in which
`repository.html_url`, `repository.full_name` or `after` is empty (as it is when the
key, or the whole `repository` object, is missing), `GiteaPush.Translate` returns no
event and exactly the error `ErrMissingRequiredFields`. -/
theorem GiteaPush_Translate_missing_fields (dec : structs.Decoder) (url : net_url)
    (data : Bytes) (giteaEvent : structs.GiteaPushEvent)
    (hdec : dec.GiteaPushEvent data = .ok giteaEvent)
    (hcommits : giteaEvent.TotalCommits ≠ 0)
    (hmissing : giteaEvent.Repository.HtmlUrl = "" ∨ giteaEvent.Repository.FullName = "" ∨
      giteaEvent.After = "") :
    GiteaPush.Translate dec url data = .error ErrMissingRequiredFields := by
  simp only [GiteaPush.Translate, hdec, cdeventsv04.NewChangeMergedEvent]
  split
  · rfl
  · simp only [hcommits, if_false]
    by_cases hafter : giteaEvent.After = ""
    · simp [hafter]
    · by_cases hname : giteaEvent.Repository.FullName = ""
      · simp [hafter, hname]
      · rename_i heq
        rcases hmissing with h | h | h
        · rw [addSources_of_empty url (.Push giteaEvent) _ h] at heq
          simp at heq
        · exact absurd h hname
        · exact absurd h hafter

set_option maxRecDepth 100000 in
/-- The case `error when payload missing after field` of `TestGiteaPush`. -/
theorem GiteaPush_Translate_missing_fields_witness :
    tests.decoder.GiteaPushEvent tests.noAfterFieldPayload = .ok
      { TotalCommits := 1,
        Repository :=
          { FullName := "yoloco/project1",
            HtmlUrl := "http://git.example.com/yoloco/project1" } } ∧
    GiteaPush.Translate tests.decoder tests.url tests.noAfterFieldPayload =
      .error ErrMissingRequiredFields :=
  ⟨rfl, GiteaPush_Translate_missing_fields tests.decoder tests.url tests.noAfterFieldPayload _
    rfl (by decide) (Or.inr (Or.inr rfl))⟩

/-- C17: `GiteaPullRequest.Translate` returns no event and the error
`ErrMissingRequiredFields` when `repository.full_name` is empty, when `action` is
empty (as it is when the key is missing), when `action` is `opened` and the title is
empty, and when `pull_request.id` is 0 unless the action is unsupported; it returns
`ErrUnsupportedPRAction` for every non-empty action other than `opened` and `closed`
when `full_name` is not empty, whatever the id and the title. -/
theorem GiteaPullRequest_Translate_errors (dec : structs.Decoder) (url : net_url)
    (data : Bytes) (giteaEvent : structs.GiteaPullRequestEvent)
    (hdec : dec.GiteaPullRequestEvent data = .ok giteaEvent) :
    (giteaEvent.Repository.FullName = "" →
      GiteaPullRequest.Translate dec url data = .error ErrMissingRequiredFields) ∧
    (giteaEvent.Action = "" →
      GiteaPullRequest.Translate dec url data = .error ErrMissingRequiredFields) ∧
    (giteaEvent.Action = "opened" → giteaEvent.PullRequest.Title = "" →
      GiteaPullRequest.Translate dec url data = .error ErrMissingRequiredFields) ∧
    (giteaEvent.PullRequest.Id = 0 →
      (giteaEvent.Repository.FullName = "" ∨ giteaEvent.Action = "" ∨
        giteaEvent.Action = "opened" ∨ giteaEvent.Action = "closed") →
      GiteaPullRequest.Translate dec url data = .error ErrMissingRequiredFields) ∧
    (giteaEvent.Repository.FullName ≠ "" → giteaEvent.Action ≠ "" →
      giteaEvent.Action ≠ "opened" → giteaEvent.Action ≠ "closed" →
      GiteaPullRequest.Translate dec url data = .error ErrUnsupportedPRAction) := by
  have hfull : giteaEvent.Repository.FullName = "" →
      GiteaPullRequest.Translate dec url data = .error ErrMissingRequiredFields := by
    intro hname
    simp [GiteaPullRequest.Translate, hdec, hname]
  have haction : giteaEvent.Action = "" →
      GiteaPullRequest.Translate dec url data = .error ErrMissingRequiredFields := by
    intro hempty
    by_cases hname : giteaEvent.Repository.FullName = ""
    · exact hfull hname
    · simp [GiteaPullRequest.Translate, hdec, hname, hempty]
  have htitle : giteaEvent.Action = "opened" → giteaEvent.PullRequest.Title = "" →
      GiteaPullRequest.Translate dec url data = .error ErrMissingRequiredFields := by
    intro hopened hnotitle
    by_cases hname : giteaEvent.Repository.FullName = ""
    · exact hfull hname
    · simp [GiteaPullRequest.Translate, hdec, hname, hopened, GiteaPullRequest.switchAction,
        cdeventsv04.NewChangeCreatedEvent, hnotitle]
  refine ⟨hfull, haction, htitle, ?_, ?_⟩
  · intro hid hcase
    rcases hcase with hname | hempty | hopened | hclosed
    · exact hfull hname
    · exact haction hempty
    · by_cases hnotitle : giteaEvent.PullRequest.Title = ""
      · exact htitle hopened hnotitle
      · by_cases hname : giteaEvent.Repository.FullName = ""
        · exact hfull hname
        · simp [GiteaPullRequest.Translate, hdec, hname, hopened,
            GiteaPullRequest.switchAction, cdeventsv04.NewChangeCreatedEvent, hnotitle, hid]
    · by_cases hname : giteaEvent.Repository.FullName = ""
      · exact hfull hname
      · simp [GiteaPullRequest.Translate, hdec, hname, hclosed,
          GiteaPullRequest.switchAction, cdeventsv04.NewChangeMergedEvent, hid]
  · intro hname hempty hopened hclosed
    simp [GiteaPullRequest.Translate, hdec, hname, hempty, hopened, hclosed,
      GiteaPullRequest.switchAction]

set_option maxRecDepth 100000 in
/-- The four error cases of `TestGiteaPullRequest`, and the payload `prClosedPayload`
without `full_name`. -/
theorem GiteaPullRequest_Translate_errors_witness :
    (tests.decoder.GiteaPullRequestEvent tests.prWithNoFullNamePayload = .ok
        { Action := "closed",
          PullRequest := { Id := 3, Title := "Fix something PR" },
          Repository := { HtmlUrl := "http://git.example.com/yoloco/project1" } } ∧
      GiteaPullRequest.Translate tests.decoder tests.url tests.prWithNoFullNamePayload =
        .error ErrMissingRequiredFields) ∧
    (tests.decoder.GiteaPullRequestEvent tests.noActionPayload = .ok
        { PullRequest := { Id := 3, Title := "Fix something PR" },
          Repository :=
            { FullName := "yoloco/project1",
              HtmlUrl := "http://git.example.com/yoloco/project1" } } ∧
      GiteaPullRequest.Translate tests.decoder tests.url tests.noActionPayload =
        .error ErrMissingRequiredFields) ∧
    (tests.decoder.GiteaPullRequestEvent tests.prWithNoTitlePayload = .ok
        { Action := "opened",
          PullRequest := { Id := 3 },
          Repository :=
            { FullName := "yoloco/project1",
              HtmlUrl := "http://git.example.com/yoloco/project1" } } ∧
      GiteaPullRequest.Translate tests.decoder tests.url tests.prWithNoTitlePayload =
        .error ErrMissingRequiredFields) ∧
    (tests.decoder.GiteaPullRequestEvent tests.prWithNoIdPayload = .ok
        { Action := "closed",
          PullRequest := { Title := "Fix something PR" },
          Repository :=
            { FullName := "yoloco/project1",
              HtmlUrl := "http://git.example.com/yoloco/project1" } } ∧
      GiteaPullRequest.Translate tests.decoder tests.url tests.prWithNoIdPayload =
        .error ErrMissingRequiredFields) ∧
    (tests.decoder.GiteaPullRequestEvent tests.prWithUnsupportedAction = .ok
        { Action := "unknown",
          PullRequest := { Id := 3, Title := "Fix something PR" },
          Repository :=
            { FullName := "yoloco/project1",
              HtmlUrl := "http://git.example.com/yoloco/project1" } } ∧
      GiteaPullRequest.Translate tests.decoder tests.url tests.prWithUnsupportedAction =
        .error ErrUnsupportedPRAction) :=
  ⟨⟨rfl, (GiteaPullRequest_Translate_errors tests.decoder tests.url
      tests.prWithNoFullNamePayload _ rfl).1 rfl⟩,
    ⟨rfl, (GiteaPullRequest_Translate_errors tests.decoder tests.url
      tests.noActionPayload _ rfl).2.1 rfl⟩,
    ⟨rfl, (GiteaPullRequest_Translate_errors tests.decoder tests.url
      tests.prWithNoTitlePayload _ rfl).2.2.1 rfl rfl⟩,
    ⟨rfl, (GiteaPullRequest_Translate_errors tests.decoder tests.url
      tests.prWithNoIdPayload _ rfl).2.2.2.1 rfl (Or.inr (Or.inr (Or.inr rfl)))⟩,
    ⟨rfl, (GiteaPullRequest_Translate_errors tests.decoder tests.url
      tests.prWithUnsupportedAction _ rfl).2.2.2.2 (by decide) (by decide) (by decide)
      (by decide)⟩⟩

/-- C18: for every create payload and every delete payload that decodes,
`GiteaCreate.Translate` and `GiteaDelete.Translate` fail with `ErrUnsupportedRefType`
when `ref_type` is not `branch`, whatever `ref` is; fail with
`ErrMissingRequiredFields` when `ref_type` is `branch` and `ref` is empty; and
otherwise return a branch-created, respectively branch-deleted, event whose subject id
is `ref` and whose subject repository id is `repository.full_name`. -/
theorem GiteaCreate_GiteaDelete_Translate (dec : structs.Decoder) (url : net_url)
    (createData deleteData : Bytes) (createEvent : structs.GiteaCreateEvent)
    (deleteEvent : structs.GiteaDeleteEvent)
    (hcreate : dec.GiteaCreateEvent createData = .ok createEvent)
    (hdelete : dec.GiteaDeleteEvent deleteData = .ok deleteEvent) :
    ((createEvent.RefType ≠ "branch" →
        GiteaCreate.Translate dec url createData = .error ErrUnsupportedRefType) ∧
      (createEvent.RefType = "branch" → createEvent.Ref = "" →
        GiteaCreate.Translate dec url createData = .error ErrMissingRequiredFields) ∧
      (createEvent.RefType = "branch" → createEvent.Ref ≠ "" →
        ∃ cdEvent, GiteaCreate.Translate dec url createData = .ok cdEvent ∧
          cdEvent.EventType = .BranchCreated ∧
          cdEvent.SubjectId = createEvent.Ref ∧
          cdEvent.SubjectRepository = some createEvent.Repository.FullName)) ∧
    ((deleteEvent.RefType ≠ "branch" →
        GiteaDelete.Translate dec url deleteData = .error ErrUnsupportedRefType) ∧
      (deleteEvent.RefType = "branch" → deleteEvent.Ref = "" →
        GiteaDelete.Translate dec url deleteData = .error ErrMissingRequiredFields) ∧
      (deleteEvent.RefType = "branch" → deleteEvent.Ref ≠ "" →
        ∃ cdEvent, GiteaDelete.Translate dec url deleteData = .ok cdEvent ∧
          cdEvent.EventType = .BranchDeleted ∧
          cdEvent.SubjectId = deleteEvent.Ref ∧
          cdEvent.SubjectRepository = some deleteEvent.Repository.FullName)) := by
  refine ⟨⟨fun htype => ?_, fun htype href => ?_, fun htype href => ?_⟩,
    ⟨fun htype => ?_, fun htype href => ?_, fun htype href => ?_⟩⟩
  · simp [GiteaCreate.Translate, hcreate, htype]
  · simp [GiteaCreate.Translate, hcreate, htype, href, cdeventsv04.NewBranchCreatedEvent]
  · simp only [GiteaCreate.Translate, hcreate, htype, if_true, href, if_false,
      cdeventsv04.NewBranchCreatedEvent, addGiteaEventAsCustomData,
      cdevents.CDEvent.SetCustomData, cdevents.CDEvent.SetSubjectId]
    refine ⟨_, rfl, ?_, rfl, ?_⟩
    · exact addSources_keeps_type url _ _
    · exact addSources_keeps_repository url _ _
  · simp [GiteaDelete.Translate, hdelete, htype]
  · simp [GiteaDelete.Translate, hdelete, htype, href, cdeventsv04.NewBranchDeletedEvent]
  · simp only [GiteaDelete.Translate, hdelete, htype, if_true, href, if_false,
      cdeventsv04.NewBranchDeletedEvent, addGiteaEventAsCustomData,
      cdevents.CDEvent.SetCustomData, cdevents.CDEvent.SetSubjectId]
    refine ⟨_, rfl, ?_, rfl, ?_⟩
    · exact addSources_keeps_type url _ _
    · exact addSources_keeps_repository url _ _

set_option maxRecDepth 100000 in
/-- The three cases of `TestGiteaCreate` and the three cases of `TestGiteaDelete`. -/
theorem GiteaCreate_GiteaDelete_Translate_witness :
    tests.decoder.GiteaCreateEvent tests.unsupportedRefTypePayload = .ok
      { Ref := "foo", RefType := "unknown",
        Repository :=
            { FullName := "yoloco/project1",
              HtmlUrl := "http://git.example.com/yoloco/project1" } } ∧
    tests.decoder.GiteaCreateEvent tests.noRefFieldPayload = .ok
      { RefType := "branch",
        Repository :=
            { FullName := "yoloco/project1",
              HtmlUrl := "http://git.example.com/yoloco/project1" } } ∧
    tests.decoder.GiteaCreateEvent tests.branchPayload = .ok
      { Ref := "foo", RefType := "branch",
        Repository :=
            { FullName := "yoloco/project1",
              HtmlUrl := "http://git.example.com/yoloco/project1" } } ∧
    GiteaCreate.Translate tests.decoder tests.url tests.unsupportedRefTypePayload =
      .error ErrUnsupportedRefType ∧
    GiteaCreate.Translate tests.decoder tests.url tests.noRefFieldPayload =
      .error ErrMissingRequiredFields ∧
    (∃ cdEvent, GiteaCreate.Translate tests.decoder tests.url tests.branchPayload = .ok cdEvent ∧
      cdEvent.EventType = .BranchCreated ∧ cdEvent.SubjectId = "foo" ∧
      cdEvent.SubjectRepository = some "yoloco/project1") ∧
    GiteaDelete.Translate tests.decoder tests.url tests.unsupportedRefTypePayload =
      .error ErrUnsupportedRefType ∧
    GiteaDelete.Translate tests.decoder tests.url tests.noRefFieldPayload =
      .error ErrMissingRequiredFields ∧
    (∃ cdEvent, GiteaDelete.Translate tests.decoder tests.url tests.branchPayload = .ok cdEvent ∧
      cdEvent.EventType = .BranchDeleted ∧ cdEvent.SubjectId = "foo" ∧
      cdEvent.SubjectRepository = some "yoloco/project1") :=
  have hunknown := GiteaCreate_GiteaDelete_Translate tests.decoder tests.url
    tests.unsupportedRefTypePayload tests.unsupportedRefTypePayload _ _ rfl rfl
  have hnoref := GiteaCreate_GiteaDelete_Translate tests.decoder tests.url
    tests.noRefFieldPayload tests.noRefFieldPayload _ _ rfl rfl
  have hbranch := GiteaCreate_GiteaDelete_Translate tests.decoder tests.url
    tests.branchPayload tests.branchPayload _ _ rfl rfl
  ⟨rfl, rfl, rfl,
    hunknown.1.1 (by decide), hnoref.1.2.1 rfl rfl, hbranch.1.2.2 rfl (by decide),
    hunknown.2.1 (by decide), hnoref.2.2.1 rfl rfl, hbranch.2.2.2 rfl (by decide)⟩

theorem addSources_of_not_parsed (url : net_url) (giteaEvent : structs.GiteaEvent)
    (cdEvent : cdevents.CDEvent)
    (h : rawRepoUrl giteaEvent = "" ∨ ∃ err, url.Parse (rawRepoUrl giteaEvent) = .error err) :
    (addSourcesFromRepositoryUrl url giteaEvent cdEvent).2 = cdEvent := by
  unfold addSourcesFromRepositoryUrl
  by_cases hurl : rawRepoUrl giteaEvent = ""
  · simp [hurl]
  · rcases h with h | ⟨err, h⟩
    · exact absurd h hurl
    · simp [hurl, h]

/-- When `url.Parse` accepts the URL and `url.JoinPath` refuses its host and path, the
event comes back with the host as its source, and, its subject source having been
empty, with the host as its subject source too: `SetSource` ran before the failure. -/
theorem addSources_of_join_error (url : net_url) (giteaEvent : structs.GiteaEvent)
    (cdEvent : cdevents.CDEvent) (u : net_url.URL) (err : GoError)
    (hurl : rawRepoUrl giteaEvent ≠ "") (hparse : url.Parse (rawRepoUrl giteaEvent) = .ok u)
    (hjoin : url.JoinPath u.Host u.Path = .error err)
    (hempty : cdEvent.SubjectSource = "") :
    (addSourcesFromRepositoryUrl url giteaEvent cdEvent).1 = some err ∧
    (addSourcesFromRepositoryUrl url giteaEvent cdEvent).2.Source = u.Host ∧
    (addSourcesFromRepositoryUrl url giteaEvent cdEvent).2.SubjectSource = u.Host := by
  simp [addSourcesFromRepositoryUrl, hurl, hparse, hjoin, cdevents.CDEvent.SetSource, hempty]

/-- C19 fails on the code for the create and delete translators: a payload with
`ref_type` `branch`, a non-empty `ref` and a `repository.html_url` that is empty or
refused by `url.Parse` is translated without error, into an event whose source and
subject source are empty, because the error of `addSourcesFromRepositoryUrl` is not
read (`GiteaPush.Translate` reads it). -/
theorem GiteaCreate_GiteaDelete_Translate_without_url (dec : structs.Decoder) (url : net_url)
    (createData deleteData : Bytes) (createEvent : structs.GiteaCreateEvent)
    (deleteEvent : structs.GiteaDeleteEvent)
    (hcreate : dec.GiteaCreateEvent createData = .ok createEvent)
    (hdelete : dec.GiteaDeleteEvent deleteData = .ok deleteEvent)
    (hctype : createEvent.RefType = "branch") (hcref : createEvent.Ref ≠ "")
    (hcurl : createEvent.Repository.HtmlUrl = "" ∨
      ∃ err, url.Parse createEvent.Repository.HtmlUrl = .error err)
    (hdtype : deleteEvent.RefType = "branch") (hdref : deleteEvent.Ref ≠ "")
    (hdurl : deleteEvent.Repository.HtmlUrl = "" ∨
      ∃ err, url.Parse deleteEvent.Repository.HtmlUrl = .error err) :
    (∃ cdEvent, GiteaCreate.Translate dec url createData = .ok cdEvent ∧
      cdEvent.Source = "" ∧ cdEvent.SubjectSource = "") ∧
    (∃ cdEvent, GiteaDelete.Translate dec url deleteData = .ok cdEvent ∧
      cdEvent.Source = "" ∧ cdEvent.SubjectSource = "") := by
  have hc := fun cdEvent => addSources_of_not_parsed url (.Create createEvent) cdEvent hcurl
  have hd := fun cdEvent => addSources_of_not_parsed url (.Delete deleteEvent) cdEvent hdurl
  constructor
  · simp [GiteaCreate.Translate, hcreate, hctype, hcref, cdeventsv04.NewBranchCreatedEvent,
      hc, addGiteaEventAsCustomData, cdevents.CDEvent.SetCustomData,
      cdevents.CDEvent.SetSubjectId, cdevents.CDEvent.SetSubjectRepository,
      cdeventsv04.newEvent]
  · simp [GiteaDelete.Translate, hdelete, hdtype, hdref, cdeventsv04.NewBranchDeletedEvent,
      hd, addGiteaEventAsCustomData, cdevents.CDEvent.SetCustomData,
      cdevents.CDEvent.SetSubjectId, cdevents.CDEvent.SetSubjectRepository,
      cdeventsv04.newEvent]

set_option maxRecDepth 100000 in
/-- The payload `branchCreatedPayload` of `TestGiteaCreate` without `html_url`. -/
theorem GiteaCreate_GiteaDelete_Translate_without_url_witness :
    tests.decoder.GiteaCreateEvent tests.branchWithNoHtmlUrlPayload = .ok
      { Ref := "foo", RefType := "branch", Repository := { FullName := "yoloco/project1" } } ∧
    tests.decoder.GiteaDeleteEvent tests.branchWithNoHtmlUrlPayload = .ok
      { Ref := "foo", RefType := "branch", Repository := { FullName := "yoloco/project1" } } ∧
    (∃ cdEvent, GiteaCreate.Translate tests.decoder tests.url
        tests.branchWithNoHtmlUrlPayload = .ok cdEvent ∧
      cdEvent.Source = "" ∧ cdEvent.SubjectSource = "") ∧
    (∃ cdEvent, GiteaDelete.Translate tests.decoder tests.url
        tests.branchWithNoHtmlUrlPayload = .ok cdEvent ∧
      cdEvent.Source = "" ∧ cdEvent.SubjectSource = "") :=
  ⟨rfl, rfl,
    GiteaCreate_GiteaDelete_Translate_without_url tests.decoder tests.url
      tests.branchWithNoHtmlUrlPayload tests.branchWithNoHtmlUrlPayload _ _ rfl rfl
      rfl (by decide) (Or.inl rfl) rfl (by decide) (Or.inl rfl)⟩

/-- C20 fails on the code: a pull request payload with the action `closed`, a
non-empty `repository.full_name`, a `pull_request.id` other than 0 and a
`repository.html_url` that is empty or refused by `url.Parse` is translated without
error, into an event with a subject id and with an empty source and an empty subject
source, because the error of `addSourcesFromRepositoryUrl` is not read. -/
theorem GiteaPullRequest_Translate_without_url (dec : structs.Decoder) (url : net_url)
    (data : Bytes) (giteaEvent : structs.GiteaPullRequestEvent)
    (hdec : dec.GiteaPullRequestEvent data = .ok giteaEvent)
    (hname : giteaEvent.Repository.FullName ≠ "")
    (hclosed : giteaEvent.Action = "closed")
    (hid : giteaEvent.PullRequest.Id ≠ 0)
    (hurl : giteaEvent.Repository.HtmlUrl = "" ∨
      ∃ err, url.Parse giteaEvent.Repository.HtmlUrl = .error err) :
    ∃ cdEvent, GiteaPullRequest.Translate dec url data = .ok cdEvent ∧
      cdEvent.SubjectId = "pr-" ++ toString giteaEvent.PullRequest.Id ∧
      cdEvent.Source = "" ∧ cdEvent.SubjectSource = "" := by
  have hsrc := fun cdEvent =>
    addSources_of_not_parsed url (.PullRequest giteaEvent) cdEvent hurl
  simp [GiteaPullRequest.Translate, hdec, hname, hclosed, GiteaPullRequest.switchAction,
    cdeventsv04.NewChangeMergedEvent, hsrc, hid, addGiteaEventAsCustomData,
    cdevents.CDEvent.SetCustomData, cdevents.CDEvent.SetSubjectId,
    cdevents.CDEvent.SetSubjectRepository, cdeventsv04.newEvent]

set_option maxRecDepth 100000 in
/-- The payload `prClosedPayload` of `TestGiteaPullRequest` without `html_url`. -/
theorem GiteaPullRequest_Translate_without_url_witness :
    tests.decoder.GiteaPullRequestEvent tests.prWithNoHtmlUrlPayload = .ok
      { Action := "closed",
        PullRequest := { Id := 3, Title := "Fix something PR" },
        Repository := { FullName := "yoloco/project1" } } ∧
    ∃ cdEvent, GiteaPullRequest.Translate tests.decoder tests.url
        tests.prWithNoHtmlUrlPayload = .ok cdEvent ∧
      cdEvent.SubjectId = "pr-3" ∧ cdEvent.Source = "" ∧ cdEvent.SubjectSource = "" :=
  ⟨rfl, GiteaPullRequest_Translate_without_url tests.decoder tests.url
    tests.prWithNoHtmlUrlPayload _ rfl (by decide) rfl (by decide) (Or.inl rfl)⟩

end translator

/-! ## The dispatcher: dropped messages and returned errors -/

namespace adapter

/-- C23: for every message whose metadata cannot be extracted, and for every message
whose payload fails the payload check, `Process` returns that error, makes no
escalation call, invokes no translator and no publisher, and acknowledges the
message: `Ack` is its only call. -/
theorem Process_drops_without_escalation (js : encoding_json) (c : CDEvents)
    (msg : transport.JetstreamMsg) (e : GoError)
    (hfail : msg.Metadata = .error e ∨
      ((∃ md, msg.Metadata = .ok md) ∧ js.UnmarshalMap msg.Data = .error e)) :
    (c.Process js msg).1 = some e ∧
    Call.escalations (c.Process js msg).2 = [] ∧
    Call.translations (c.Process js msg).2 = [] ∧
    Call.publishes (c.Process js msg).2 = [] ∧
    Call.acks (c.Process js msg).2 = [msg] ∧
    (c.Process js msg).2 = [Call.Ack msg] := by
  rcases hfail with hmd | ⟨⟨md, hmd⟩, hv⟩
  · simp [CDEvents.Process, CDEvents.processBody, hmd, Call.escalations, Call.translations,
      Call.publishes, Call.acks]
  · simp [CDEvents.Process, CDEvents.processBody, hmd, hv, Call.escalations,
      Call.translations, Call.publishes, Call.acks]

/-- A message whose metadata cannot be extracted, and the message `webhookTestEventMsg`
of `TestProcess` with the body `notvalidjson` of `TestWebhookHandler`. -/
theorem Process_drops_without_escalation_witness :
    ((tests.newAdapter "test.event" (.ok tests.changeMergedEvent) none none).Process tests.json
        { tests.webhookTestEventMsg with Metadata := .error ⟨"nats: no metadata"⟩ } =
      (some ⟨"nats: no metadata"⟩,
        [Call.Ack { tests.webhookTestEventMsg with Metadata := .error ⟨"nats: no metadata"⟩ }])) ∧
    (tests.json.UnmarshalMap tests.notValidJSONBody =
        .error ⟨"invalid character looking for beginning of value"⟩ ∧
      (tests.newAdapter "test.event" (.ok tests.changeMergedEvent) none none).Process tests.json
          { tests.webhookTestEventMsg with Data := tests.notValidJSONBody } =
        (some ⟨"invalid character looking for beginning of value"⟩,
          [Call.Ack { tests.webhookTestEventMsg with Data := tests.notValidJSONBody }])) :=
  have h1 := Process_drops_without_escalation tests.json
    (tests.newAdapter "test.event" (.ok tests.changeMergedEvent) none none)
    { tests.webhookTestEventMsg with Metadata := .error ⟨"nats: no metadata"⟩ }
    ⟨"nats: no metadata"⟩ (Or.inl rfl)
  have h2 := Process_drops_without_escalation tests.json
    (tests.newAdapter "test.event" (.ok tests.changeMergedEvent) none none)
    { tests.webhookTestEventMsg with Data := tests.notValidJSONBody }
    ⟨"invalid character looking for beginning of value"⟩ (Or.inr ⟨⟨_, rfl⟩, rfl⟩)
  ⟨Prod.ext h1.1 h1.2.2.2.2.2, rfl, Prod.ext h2.1 h2.2.2.2.2.2⟩

/-- The body of `Process`, once metadata and payload have passed, ends in one of five
ways: four escalations, whose result is the result of `Process`, or success. -/
theorem processBody_cases (js : encoding_json) (c : CDEvents) (msg : transport.JetstreamMsg)
    (md : jetstream.MsgMetadata) (v : Option (List (String × JSONValue)))
    (hmd : msg.Metadata = .ok md) (hv : js.UnmarshalMap msg.Data = .ok v) :
    (∃ kind, (kind = ErrInvalidSubject ∨ kind = ErrNoTranslator ∨
        kind = ErrTranslationFailed ∨ kind = ErrPublishFailed) ∧
      (c.processBody js msg).1 = c.invMsgHandler.Receive msg kind ∧
      Call.escalations (c.processBody js msg).2 = [(msg, kind)]) ∨
    ((c.processBody js msg).1 = none ∧ Call.escalations (c.processBody js msg).2 = []) := by
  simp only [CDEvents.processBody, hmd, hv]
  split
  · left
    refine ⟨ErrInvalidSubject, Or.inl rfl, ?_⟩
    split <;> simp_all [Call.escalations]
  · split
    · left
      refine ⟨ErrNoTranslator, Or.inr (Or.inl rfl), ?_⟩
      split <;> simp_all [Call.escalations]
    · split
      · left
        refine ⟨ErrTranslationFailed, Or.inr (Or.inr (Or.inl rfl)), ?_⟩
        split <;> simp_all [Call.escalations]
      · split
        · left
          refine ⟨ErrPublishFailed, Or.inr (Or.inr (Or.inr rfl)), ?_⟩
          split <;> simp_all [Call.escalations]
        · right
          simp [Call.escalations]

theorem escalations_append_ack (tr : List Call) (msg : transport.JetstreamMsg) :
    Call.escalations (tr ++ [Call.Ack msg]) = Call.escalations tr := by
  induction tr with
  | nil => rfl
  | cons x xs ih => cases x <;> simp [Call.escalations, ih]

/-- C25: `Process` returns the non-nil error `e` exactly when metadata extraction
fails with `e`, or the payload check fails with `e`, or an escalation call it made
returned `e`; so it returns nil whenever metadata and payload pass and every
escalation call it made returned nil, which covers the four classified failures. -/
theorem Process_error_iff (js : encoding_json) (c : CDEvents) (msg : transport.JetstreamMsg)
    (e : GoError) :
    ((c.Process js msg).1 = some e ↔
      (msg.Metadata = .error e ∨
        ((∃ md, msg.Metadata = .ok md) ∧ js.UnmarshalMap msg.Data = .error e) ∨
        ∃ call ∈ Call.escalations (c.Process js msg).2,
          c.invMsgHandler.Receive call.1 call.2 = some e)) ∧
    ((∃ md, msg.Metadata = .ok md) ∧ (∃ v, js.UnmarshalMap msg.Data = .ok v) ∧
        (∀ call ∈ Call.escalations (c.Process js msg).2,
          c.invMsgHandler.Receive call.1 call.2 = none) →
      (c.Process js msg).1 = none) := by
  have hesc : Call.escalations (c.Process js msg).2 = Call.escalations (c.processBody js msg).2 :=
    escalations_append_ack _ msg
  have hres : (c.Process js msg).1 = (c.processBody js msg).1 := rfl
  rw [hesc, hres]
  cases hmd : msg.Metadata with
  | error e0 =>
    simp [CDEvents.processBody, hmd, Call.escalations]
  | ok md =>
    cases hv : js.UnmarshalMap msg.Data with
    | error e0 =>
      simp [CDEvents.processBody, hmd, hv, Call.escalations]
    | ok v =>
      rcases processBody_cases js c msg md v hmd hv with ⟨kind, -, hr, hcalls⟩ | ⟨hr, hcalls⟩
      · rw [hr, hcalls]
        simp
      · rw [hr, hcalls]
        simp

end adapter

/-! ## The dead-letter escalator: failures before the publish call -/

namespace invalidmsg

/-- C26: when the metadata of the message cannot be extracted, and when its payload
does not decode as a generic JSON value, `Receive` returns that error and makes no
call at all, so nothing is published. -/
theorem Receive_aborts_without_publish (js : encoding_json) (i : jetStreamInvalidMsgHandler)
    (invalidMsg : transport.JetstreamMsg) (originalErr e : GoError)
    (hfail : invalidMsg.Metadata = .error e ∨
      ((∃ md, invalidMsg.Metadata = .ok md) ∧ js.Unmarshal invalidMsg.Data = .error e)) :
    (i.Receive js invalidMsg originalErr).1 = some e ∧
    (i.Receive js invalidMsg originalErr).2 = [] ∧
    Call.jetstreamPublishes (i.Receive js invalidMsg originalErr).2 = [] := by
  rcases hfail with hmd | ⟨⟨md, hmd⟩, hv⟩
  · simp [jetStreamInvalidMsgHandler.Receive, hmd, Call.jetstreamPublishes]
  · simp [jetStreamInvalidMsgHandler.Receive, hmd, hv, Call.jetstreamPublishes]

/-- The message `invalidMsg` of `TestJetStreamInvalidMsgHandler` without metadata, and
with the body `notvalidjson`. -/
theorem Receive_aborts_without_publish_witness :
    tests.handler.Receive tests.json
        { tests.invalidMsg with Metadata := .error ⟨"nats: no metadata"⟩ }
        ⟨"Could not deliver CD Event"⟩ = (some ⟨"nats: no metadata"⟩, []) ∧
    tests.json.Unmarshal tests.notValidJSONBody =
      .error ⟨"invalid character looking for beginning of value"⟩ ∧
    tests.handler.Receive tests.json
        { tests.invalidMsg with Data := tests.notValidJSONBody }
        ⟨"Could not deliver CD Event"⟩ =
      (some ⟨"invalid character looking for beginning of value"⟩, []) :=
  have h1 := Receive_aborts_without_publish tests.json tests.handler
    { tests.invalidMsg with Metadata := .error ⟨"nats: no metadata"⟩ }
    ⟨"Could not deliver CD Event"⟩ ⟨"nats: no metadata"⟩ (Or.inl rfl)
  have h2 := Receive_aborts_without_publish tests.json tests.handler
    { tests.invalidMsg with Data := tests.notValidJSONBody }
    ⟨"Could not deliver CD Event"⟩ ⟨"invalid character looking for beginning of value"⟩
    (Or.inr ⟨⟨_, rfl⟩, rfl⟩)
  ⟨Prod.ext h1.1 h1.2.1, rfl, Prod.ext h2.1 h2.2.1⟩

end invalidmsg

/-! ## The payload check and the errors handed to the escalator -/

namespace adapter

/-- The cases `send to invalid msg handler when no translator matching subject` of
`TestProcess`, with an escalator that succeeds and with one that fails. -/
theorem Process_error_iff_witness :
    ((tests.newAdapter "test.somethingelse" (.ok tests.changeMergedEvent) none
        none).Process tests.json tests.webhookTestUnknownMsg).1 = none ∧
    ((tests.newAdapter "test.somethingelse" (.ok tests.changeMergedEvent) none
        (some ⟨"nats: timeout"⟩)).Process tests.json tests.webhookTestUnknownMsg).1 =
      some ⟨"nats: timeout"⟩ :=
  ⟨(Process_error_iff tests.json
      (tests.newAdapter "test.somethingelse" (.ok tests.changeMergedEvent) none none)
      tests.webhookTestUnknownMsg ⟨""⟩).2 ⟨⟨_, rfl⟩, ⟨_, rfl⟩, fun _ _ => rfl⟩,
    (Process_error_iff tests.json
      (tests.newAdapter "test.somethingelse" (.ok tests.changeMergedEvent) none
        (some ⟨"nats: timeout"⟩))
      tests.webhookTestUnknownMsg ⟨"nats: timeout"⟩).1.2
      (Or.inr (Or.inr ⟨(tests.webhookTestUnknownMsg, ErrNoTranslator),
        by
          have h : Call.escalations ((tests.newAdapter "test.somethingelse"
              (.ok tests.changeMergedEvent) none (some ⟨"nats: timeout"⟩)).Process tests.json
              tests.webhookTestUnknownMsg).2 =
              [(tests.webhookTestUnknownMsg, ErrNoTranslator)] := rfl
          rw [h]
          exact List.mem_singleton.mpr rfl,
        rfl⟩))⟩

/-- C24 fails as stated: the payload `[]` is well-formed JSON, and the generic decode
of the escalator accepts it, but the payload check of `Process` decodes into a
`map[string]interface{}` and refuses it; `Process` takes the drop path, returning the
error with `Ack` as its only call. -/
theorem Process_refuses_array :
    tests.webhookJSON.Unmarshal tests.arrayMsg.Data = .ok (.array []) ∧
    (tests.newAdapter "test.event" (.ok tests.changeMergedEvent) none none).Process
        tests.webhookJSON tests.arrayMsg =
      (some ⟨"json: cannot unmarshal array into Go value of type map[string]interface \x7b\x7d"⟩,
        [Call.Ack tests.arrayMsg]) :=
  ⟨rfl, rfl⟩

/-- C24, amended: the payload check of `Process` accepts exactly the payloads whose
generic JSON value is an object or null. For a message with extractable metadata and
such a payload `Process` goes on to the routing key: it escalates or calls a
translator. Every payload the check accepts is accepted by the generic decode of the
escalator; every other payload, also one that is well-formed JSON of another kind,
takes the drop path. -/
theorem Process_payload_check (js : encoding_json) (c : CDEvents)
    (msg : transport.JetstreamMsg) (md : jetstream.MsgMetadata)
    (hmd : msg.Metadata = .ok md) :
    ((∃ v, js.UnmarshalMap msg.Data = .ok v) ↔
      ((∃ fields, js.Unmarshal msg.Data = .ok (.object fields)) ∨
        js.Unmarshal msg.Data = .ok .null)) ∧
    ((∃ v, js.UnmarshalMap msg.Data = .ok v) →
      (Call.escalations (c.Process js msg).2 ≠ [] ∨
        Call.translations (c.Process js msg).2 ≠ []) ∧
      ∃ w, js.Unmarshal msg.Data = .ok w) ∧
    ((¬ ∃ v, js.UnmarshalMap msg.Data = .ok v) →
      (c.Process js msg).1 ≠ none ∧ (c.Process js msg).2 = [Call.Ack msg]) := by
  refine ⟨?_, ?_, ?_⟩
  · unfold encoding_json.UnmarshalMap
    cases js.Unmarshal msg.Data with
    | error e0 => simp
    | ok w => cases w <;> simp
  · rintro ⟨v, hv⟩
    constructor
    · simp only [CDEvents.Process, CDEvents.processBody, hmd, hv]
      repeat' split
      all_goals simp [Call.escalations, Call.translations]
    · unfold encoding_json.UnmarshalMap at hv
      cases hw : js.Unmarshal msg.Data with
      | error e0 => simp [hw] at hv
      | ok w => exact ⟨w, rfl⟩
  · intro hno
    cases hv : js.UnmarshalMap msg.Data with
    | error e0 => simp [CDEvents.Process, CDEvents.processBody, hmd, hv]
    | ok v => exact absurd ⟨v, hv⟩ hno

/-- The message `webhookTestEventMsg` of `TestProcess`, whose payload is an object, and
the same message with the payload `null`. -/
theorem Process_payload_check_witness :
    (tests.webhookJSON.Unmarshal tests.webhookTestEventMsg.Data =
        .ok (.object [("foo", .string "bar")]) ∧
      (Call.escalations ((tests.newAdapter "test.event" (.ok tests.changeMergedEvent) none
          none).Process tests.webhookJSON tests.webhookTestEventMsg).2 ≠ [] ∨
        Call.translations ((tests.newAdapter "test.event" (.ok tests.changeMergedEvent) none
          none).Process tests.webhookJSON tests.webhookTestEventMsg).2 ≠ [])) ∧
    (tests.webhookJSON.Unmarshal tests.nullBody = .ok .null ∧
      (Call.escalations ((tests.newAdapter "test.event" (.ok tests.changeMergedEvent) none
          none).Process tests.webhookJSON
          { tests.webhookTestEventMsg with Data := tests.nullBody }).2 ≠ [] ∨
        Call.translations ((tests.newAdapter "test.event" (.ok tests.changeMergedEvent) none
          none).Process tests.webhookJSON
          { tests.webhookTestEventMsg with Data := tests.nullBody }).2 ≠ [])) :=
  have h1 := Process_payload_check tests.webhookJSON
    (tests.newAdapter "test.event" (.ok tests.changeMergedEvent) none none)
    tests.webhookTestEventMsg _ rfl
  have h2 := Process_payload_check tests.webhookJSON
    (tests.newAdapter "test.event" (.ok tests.changeMergedEvent) none none)
    { tests.webhookTestEventMsg with Data := tests.nullBody } _ rfl
  ⟨⟨rfl, (h1.2.1 (h1.1.2 (Or.inl ⟨_, rfl⟩))).1⟩,
    ⟨rfl, (h2.2.1 (h2.1.2 (Or.inr rfl))).1⟩⟩

/-- C27: every escalation call of `Process` hands over the message itself and one of
the four errors `ErrInvalidSubject`, `ErrNoTranslator`, `ErrTranslationFailed`,
`ErrPublishFailed`; so whatever `Receive` publishes for such a call is the record of
the message with one of four constant texts as its error. The error handed over does
not depend on the error of the translator or of the publisher: two adapters whose
translators fail on the message with different errors make the same escalation call,
and so do two adapters whose publishers fail with different errors. -/
theorem Process_escalates_fixed_errors (js : encoding_json) (c : CDEvents)
    (msg : transport.JetstreamMsg) :
    (∀ call ∈ Call.escalations (c.Process js msg).2,
      call.1 = msg ∧
      (call.2 = ErrInvalidSubject ∨ call.2 = ErrNoTranslator ∨
        call.2 = ErrTranslationFailed ∨ call.2 = ErrPublishFailed)) ∧
    (∀ (i : invalidmsg.jetStreamInvalidMsgHandler),
      ∀ call ∈ Call.escalations (c.Process js msg).2,
      ∀ published ∈ Call.jetstreamPublishes (i.Receive js call.1 call.2).2,
      ∃ md v text, msg.Metadata = .ok md ∧ js.Unmarshal msg.Data = .ok v ∧
        (text = "Message subject is invalid" ∨ text = "No translator found" ∨
          text = "Could not translate event" ∨ text = "Failed to publish event") ∧
        published.2 = (js.MarshalHolder
          { Subject := msg.Subject
            Timestamp := md.Timestamp
            StreamSeq := md.Sequence.Stream
            NumDelivered := md.NumDelivered
            Error := text
            Content := v }).1) ∧
    (∀ (c2 : CDEvents) (md : jetstream.MsgMetadata) (v : Option (List (String × JSONValue)))
      (t1 t2 : translator.Webhook) (e1 e2 : GoError),
      msg.Metadata = .ok md → js.UnmarshalMap msg.Data = .ok v →
      2 ≤ (subjectParts msg).length →
      c.translators.lookup (eventSubject (subjectParts msg)) = some t1 →
      c2.translators.lookup (eventSubject (subjectParts msg)) = some t2 →
      t1.Translate msg.Data = .error e1 → t2.Translate msg.Data = .error e2 →
      Call.escalations (c.Process js msg).2 = [(msg, ErrTranslationFailed)] ∧
      Call.escalations (c2.Process js msg).2 = [(msg, ErrTranslationFailed)]) ∧
    (∀ (c2 : CDEvents) (md : jetstream.MsgMetadata) (v : Option (List (String × JSONValue)))
      (t1 t2 : translator.Webhook) (ev1 ev2 : cdevents.CDEvent) (e1 e2 : GoError),
      msg.Metadata = .ok md → js.UnmarshalMap msg.Data = .ok v →
      2 ≤ (subjectParts msg).length →
      c.translators.lookup (eventSubject (subjectParts msg)) = some t1 →
      c2.translators.lookup (eventSubject (subjectParts msg)) = some t2 →
      t1.Translate msg.Data = .ok ev1 → t2.Translate msg.Data = .ok ev2 →
      c.publisher.Publish ev1 = some e1 → c2.publisher.Publish ev2 = some e2 →
      Call.escalations (c.Process js msg).2 = [(msg, ErrPublishFailed)] ∧
      Call.escalations (c2.Process js msg).2 = [(msg, ErrPublishFailed)]) := by
  have hfixed : ∀ call ∈ Call.escalations (c.Process js msg).2,
      call.1 = msg ∧
      (call.2 = ErrInvalidSubject ∨ call.2 = ErrNoTranslator ∨
        call.2 = ErrTranslationFailed ∨ call.2 = ErrPublishFailed) := by
    have hesc : Call.escalations (c.Process js msg).2 =
        Call.escalations (c.processBody js msg).2 := escalations_append_ack _ msg
    rw [hesc]
    cases hmd : msg.Metadata with
    | error e0 => simp [CDEvents.processBody, hmd, Call.escalations]
    | ok md =>
      cases hv : js.UnmarshalMap msg.Data with
      | error e0 => simp [CDEvents.processBody, hmd, hv, Call.escalations]
      | ok v =>
        rcases processBody_cases js c msg md v hmd hv with ⟨kind, hkind, -, hcalls⟩ | ⟨-, hcalls⟩
        · rw [hcalls]
          intro call hcall
          rw [List.mem_singleton] at hcall
          subst hcall
          exact ⟨rfl, hkind⟩
        · rw [hcalls]
          simp
  refine ⟨hfixed, ?_, ?_, ?_⟩
  · intro i call hcall published hpub
    obtain ⟨hmsg, hkind⟩ := hfixed call hcall
    rw [hmsg] at hpub
    unfold invalidmsg.jetStreamInvalidMsgHandler.Receive at hpub
    cases hmd : msg.Metadata with
    | error e0 => simp [hmd, Call.jetstreamPublishes] at hpub
    | ok md =>
      cases hv : js.Unmarshal msg.Data with
      | error e0 => simp [hmd, hv, Call.jetstreamPublishes] at hpub
      | ok w =>
        refine ⟨md, w, call.2.Error, rfl, rfl, ?_, ?_⟩
        · rcases hkind with h | h | h | h <;> rw [h] <;>
            simp [ErrInvalidSubject, ErrNoTranslator, ErrTranslationFailed, ErrPublishFailed]
        · simp only [hmd, hv] at hpub
          split at hpub <;> simp [Call.jetstreamPublishes] at hpub <;> rw [hpub]
  · intro c2 md v t1 t2 e1 e2 hmd hv hparts h1 h2 ht1 ht2
    have hparts2 : ¬ (subjectParts msg).length < 2 := by omega
    constructor
    · simp only [CDEvents.Process, CDEvents.processBody, hmd, hv, hparts2, if_false, h1, ht1]
      split <;> simp [Call.escalations]
    · simp only [CDEvents.Process, CDEvents.processBody, hmd, hv, hparts2, if_false, h2, ht2]
      split <;> simp [Call.escalations]
  · intro c2 md v t1 t2 ev1 ev2 e1 e2 hmd hv hparts h1 h2 ht1 ht2 hp1 hp2
    have hparts2 : ¬ (subjectParts msg).length < 2 := by omega
    constructor
    · simp only [CDEvents.Process, CDEvents.processBody, hmd, hv, hparts2, if_false, h1, ht1,
        hp1]
      split <;> simp [Call.escalations]
    · simp only [CDEvents.Process, CDEvents.processBody, hmd, hv, hparts2, if_false, h2, ht2,
        hp2]
      split <;> simp [Call.escalations]

/-- The message `webhookTestEventMsg` of `TestProcess`, with a translator that fails
with `ErrNoCommitsOnPushEvent` and one that fails with `ErrMissingRequiredFields`, and
with two publishers that fail with different errors. -/
theorem Process_escalates_fixed_errors_witness :
    (Call.escalations ((tests.newAdapter "test.event"
        (.error translator.ErrNoCommitsOnPushEvent) none none).Process tests.json
        tests.webhookTestEventMsg).2 = [(tests.webhookTestEventMsg, ErrTranslationFailed)] ∧
      Call.escalations ((tests.newAdapter "test.event"
        (.error translator.ErrMissingRequiredFields) none none).Process tests.json
        tests.webhookTestEventMsg).2 = [(tests.webhookTestEventMsg, ErrTranslationFailed)]) ∧
    (Call.escalations ((tests.newAdapter "test.event" (.ok tests.changeMergedEvent)
        (some ⟨"nats: timeout"⟩) none).Process tests.json
        tests.webhookTestEventMsg).2 = [(tests.webhookTestEventMsg, ErrPublishFailed)] ∧
      Call.escalations ((tests.newAdapter "test.event" (.ok tests.changeMergedEvent)
        (some ⟨"nats: no responders"⟩) none).Process tests.json
        tests.webhookTestEventMsg).2 = [(tests.webhookTestEventMsg, ErrPublishFailed)]) :=
  ⟨(Process_escalates_fixed_errors tests.json
      (tests.newAdapter "test.event" (.error translator.ErrNoCommitsOnPushEvent) none none)
      tests.webhookTestEventMsg).2.2.1
      (tests.newAdapter "test.event" (.error translator.ErrMissingRequiredFields) none none)
      _ _ _ _ translator.ErrNoCommitsOnPushEvent translator.ErrMissingRequiredFields
      rfl rfl (by decide) rfl rfl rfl rfl,
    (Process_escalates_fixed_errors tests.json
      (tests.newAdapter "test.event" (.ok tests.changeMergedEvent)
        (some ⟨"nats: timeout"⟩) none)
      tests.webhookTestEventMsg).2.2.2
      (tests.newAdapter "test.event" (.ok tests.changeMergedEvent)
        (some ⟨"nats: no responders"⟩) none)
      _ _ _ _ tests.changeMergedEvent tests.changeMergedEvent
      ⟨"nats: timeout"⟩ ⟨"nats: no responders"⟩
      rfl rfl (by decide) rfl rfl rfl rfl rfl rfl⟩

end adapter

/-! ## The webhook handler -/

namespace webhook

theorem gitea_subject_eq (subjectBase giteaEventHeader : String) :
    subjectBase ++ ".gitea." ++ giteaEventHeader =
      subjectBase ++ "." ++ ("gitea." ++ giteaEventHeader) := by
  apply String.ext
  simp [String.data_append]

theorem two_le_length_Split (a k : String) :
    2 ≤ (strings.Split (a ++ "." ++ k) '.').length := by
  have h := strings.Split_append_sep a k '.'
  have h2 : a ++ String.mk ['.'] ++ k = a ++ "." ++ k := rfl
  rw [h2] at h
  rw [h]
  simp only [strings.Split, List.length_append, List.length_cons]
  omega

/-- C22 fails as stated: the body `null` does not decode as a JSON object, but
`json.Unmarshal` into a `map[string]interface{}` accepts it, leaving the map nil, so
the handler publishes it and answers 200 `OK`. -/
theorem Handler_accepts_null_body :
    tests.webhookJSON.Unmarshal tests.nullBody = .ok .null ∧
    Handler tests.webhookJSON tests.mediaTypes tests.mockJS "test"
        (tests.newRequest "POST" "application/json" "" tests.nullBody) =
      ({ StatusCode := 200, Body := "OK" },
        [Call.JetstreamPublish "test.unknown" tests.nullBody]) :=
  ⟨rfl, rfl⟩

/-- C22, amended: the handler rejects, making no call, every request that is not a
POST (501 `Method not supported`), has no `Content-Type` (400), has a malformed
`Content-Type` (400), has a media type other than `application/json` (415), has an
empty body (400 `Received empty body`) or has a body that `json.Unmarshal` does not
decode into a `map[string]interface{}`, which is every body whose generic JSON value
is neither an object nor null (400 `Payload is not valid json`); each check is reached
only by the requests that pass the checks before it. -/
theorem Handler_rejects (js : encoding_json) (mime : mime)
    (jsPublisher : transport.JetstreamPublisher) (subjectBase : String) (r : http.Request) :
    (r.Method ≠ "POST" →
      Handler js mime jsPublisher subjectBase r =
        (http.Error "Method not supported" 501, [])) ∧
    (r.Method = "POST" → r.Header "Content-Type" = "" →
      Handler js mime jsPublisher subjectBase r =
        (http.Error "Content-Type header not set" 400, [])) ∧
    (r.Method = "POST" → r.Header "Content-Type" ≠ "" →
      (∃ err, mime.ParseMediaType (r.Header "Content-Type") = .error err) →
      Handler js mime jsPublisher subjectBase r =
        (http.Error "Malformed Content-Type header" 400, [])) ∧
    (r.Method = "POST" → r.Header "Content-Type" ≠ "" →
      (∃ mt, mime.ParseMediaType (r.Header "Content-Type") = .ok mt ∧
        mt ≠ "application/json") →
      Handler js mime jsPublisher subjectBase r =
        (http.Error "Content-Type header must be application/json" 415, [])) ∧
    (r.Method = "POST" → r.Header "Content-Type" ≠ "" →
      mime.ParseMediaType (r.Header "Content-Type") = .ok "application/json" →
      r.Body = .ok [] →
      Handler js mime jsPublisher subjectBase r =
        (http.Error "Received empty body" 400, [])) ∧
    (r.Method = "POST" → r.Header "Content-Type" ≠ "" →
      mime.ParseMediaType (r.Header "Content-Type") = .ok "application/json" →
      (∃ data, r.Body = .ok data ∧ data ≠ [] ∧
        ∃ err, js.UnmarshalMap data = .error err) →
      Handler js mime jsPublisher subjectBase r =
        (http.Error "Payload is not valid json" 400, [])) ∧
    (∀ data, (∃ err, js.UnmarshalMap data = .error err) ↔
      ¬ ((∃ fields, js.Unmarshal data = .ok (.object fields)) ∨
        js.Unmarshal data = .ok .null)) := by
  refine ⟨?_, ?_, ?_, ?_, ?_, ?_, ?_⟩
  · intro hmethod
    simp [Handler, http.MethodPost, hmethod, http.StatusNotImplemented]
  · intro hmethod hct
    simp [Handler, http.MethodPost, hmethod, hct, http.StatusBadRequest]
  · rintro hmethod hct ⟨err, hmt⟩
    simp [Handler, http.MethodPost, hmethod, hct, hmt, http.StatusBadRequest]
  · rintro hmethod hct ⟨mt, hmt, hne⟩
    simp [Handler, http.MethodPost, hmethod, hct, hmt, hne, http.StatusUnsupportedMediaType]
  · intro hmethod hct hmt hbody
    simp [Handler, http.MethodPost, hmethod, hct, hmt, hbody, http.StatusBadRequest]
  · rintro hmethod hct hmt ⟨data, hbody, hlen, err, hv⟩
    simp [Handler, http.MethodPost, hmethod, hct, hmt, hbody, hlen, hv, http.StatusBadRequest]
  · intro data
    unfold encoding_json.UnmarshalMap
    cases js.Unmarshal data with
    | error e0 => simp
    | ok w => cases w <;> simp

/-- The six error cases of `TestWebhookHandler`, the fourth with the media type
`text/plain` (the test has no case for it). -/
theorem Handler_rejects_witness :
    Handler tests.json tests.mediaTypes tests.mockJS ""
        (tests.newRequest "GET" "application/json" "" tests.validMsgData) =
      (http.Error "Method not supported" 501, []) ∧
    Handler tests.json tests.mediaTypes tests.mockJS ""
        (tests.newRequest "POST" "" "" tests.validMsgData) =
      (http.Error "Content-Type header not set" 400, []) ∧
    Handler tests.json tests.mediaTypes tests.mockJS ""
        (tests.newRequest "POST" "malformed;thing" "" tests.validMsgData) =
      (http.Error "Malformed Content-Type header" 400, []) ∧
    Handler tests.json tests.mediaTypes tests.mockJS ""
        (tests.newRequest "POST" "text/plain" "" tests.validMsgData) =
      (http.Error "Content-Type header must be application/json" 415, []) ∧
    Handler tests.json tests.mediaTypes tests.mockJS ""
        (tests.newRequest "POST" "application/json" "" []) =
      (http.Error "Received empty body" 400, []) ∧
    Handler tests.json tests.mediaTypes tests.mockJS ""
        (tests.newRequest "POST" "application/json" "" tests.notValidJSONBody) =
      (http.Error "Payload is not valid json" 400, []) :=
  ⟨(Handler_rejects tests.json tests.mediaTypes tests.mockJS ""
      (tests.newRequest "GET" "application/json" "" tests.validMsgData)).1 (by decide),
    (Handler_rejects tests.json tests.mediaTypes tests.mockJS ""
      (tests.newRequest "POST" "" "" tests.validMsgData)).2.1 rfl rfl,
    (Handler_rejects tests.json tests.mediaTypes tests.mockJS ""
      (tests.newRequest "POST" "malformed;thing" "" tests.validMsgData)).2.2.1 rfl
      (by decide) ⟨_, rfl⟩,
    (Handler_rejects tests.json tests.mediaTypes tests.mockJS ""
      (tests.newRequest "POST" "text/plain" "" tests.validMsgData)).2.2.2.1 rfl
      (by decide) ⟨"text/plain", rfl, by decide⟩,
    (Handler_rejects tests.json tests.mediaTypes tests.mockJS ""
      (tests.newRequest "POST" "application/json" "" [])).2.2.2.2.1 rfl (by decide) rfl rfl,
    (Handler_rejects tests.json tests.mediaTypes tests.mockJS ""
      (tests.newRequest "POST" "application/json" "" tests.notValidJSONBody)).2.2.2.2.2.1 rfl
      (by decide) rfl ⟨tests.notValidJSONBody, rfl, by decide, _, rfl⟩⟩

/-- Whatever the handler publishes has passed its payload check and goes to a subject
made of the base, a dot and a non-empty rest. -/
theorem Handler_published (js : encoding_json) (mime : mime)
    (jsPublisher : transport.JetstreamPublisher) (subjectBase : String) (r : http.Request)
    (published : String × Bytes)
    (hpub : published ∈ Call.jetstreamPublishes (Handler js mime jsPublisher subjectBase r).2) :
    (∃ rest, published.1 = subjectBase ++ "." ++ rest) ∧
    ∃ v, js.UnmarshalMap published.2 = .ok v := by
  unfold Handler at hpub
  split at hpub
  · simp [Call.jetstreamPublishes] at hpub
  · simp only at hpub
    split at hpub
    · simp [Call.jetstreamPublishes] at hpub
    · split at hpub
      · simp [Call.jetstreamPublishes] at hpub
      · split at hpub
        · simp [Call.jetstreamPublishes] at hpub
        · split at hpub
          · simp [Call.jetstreamPublishes] at hpub
          · split at hpub
            · simp [Call.jetstreamPublishes] at hpub
            · split at hpub
              · simp [Call.jetstreamPublishes] at hpub
              · rename_i data hbody hlen x v hv
                have hshape : published =
                    (if r.Header "X-Gitea-Event" ≠ "" then
                      subjectBase ++ ".gitea." ++ r.Header "X-Gitea-Event"
                    else subjectBase ++ ".unknown", data) := by
                  split at hpub <;> simpa [Call.jetstreamPublishes] using hpub
                rw [hshape]
                refine ⟨?_, v, hv⟩
                by_cases hh : r.Header "X-Gitea-Event" = ""
                · exact ⟨"unknown", by
                    simp only [ne_eq, hh, not_true_eq_false, if_false]
                    apply String.ext
                    simp [String.data_append]⟩
                · exact ⟨"gitea." ++ r.Header "X-Gitea-Event", by
                    simp only [ne_eq, hh, not_false_eq_true, if_true]
                    exact gitea_subject_eq _ _⟩

/-- A message with extractable metadata that passes the payload check and has at least
two subject segments is routed: `Process` escalates it or calls a translator, and never
escalates it with `ErrInvalidSubject`. -/
theorem Process_of_routable (js : encoding_json) (c : adapter.CDEvents)
    (msg : transport.JetstreamMsg) (md : jetstream.MsgMetadata)
    (v : Option (List (String × JSONValue)))
    (hmd : msg.Metadata = .ok md) (hv : js.UnmarshalMap msg.Data = .ok v)
    (hparts : 2 ≤ (adapter.subjectParts msg).length) :
    (Call.escalations (c.Process js msg).2 ≠ [] ∨
      Call.translations (c.Process js msg).2 ≠ []) ∧
    ∀ call ∈ Call.escalations (c.Process js msg).2, call.2 ≠ adapter.ErrInvalidSubject := by
  have hparts2 : ¬ (adapter.subjectParts msg).length < 2 := by omega
  simp only [adapter.CDEvents.Process, adapter.CDEvents.processBody, hmd, hv, hparts2,
    if_false]
  repeat' split
  all_goals
    simp [Call.escalations, Call.translations, adapter.ErrInvalidSubject,
      adapter.ErrNoTranslator, adapter.ErrTranslationFailed, adapter.ErrPublishFailed]

set_option maxRecDepth 100000 in
/-- C28 fails as stated: for the body `null` the handler publishes, to
`test.gitea.push`, a body whose generic JSON value is null, not an object. -/
theorem Handler_publishes_null_body :
    Call.jetstreamPublishes (Handler tests.webhookJSON tests.mediaTypes tests.mockJS "test"
      (tests.newRequest "POST" "application/json" "push" tests.nullBody)).2 =
      [("test.gitea.push", tests.nullBody)] ∧
    tests.webhookJSON.Unmarshal tests.nullBody = .ok .null ∧
    ¬ ∃ fields, tests.webhookJSON.Unmarshal tests.nullBody = .ok (.object fields) :=
  ⟨rfl, rfl, by
    rintro ⟨fields, h⟩
    have h2 : tests.webhookJSON.Unmarshal tests.nullBody = .ok .null := rfl
    rw [h2] at h
    cases h⟩

/-- C28, amended: for every subject base and every request, whatever the handler
publishes has a subject of at least two dot-separated segments and a body whose
generic JSON value is an object or null; so for a message with that subject, that body
and extractable metadata, `Process` passes the payload check, goes on to routing,
never escalates with `ErrInvalidSubject`, and the payload decode of the escalator
succeeds, so that `Receive` reaches its publish call. -/
theorem Handler_published_is_routable (js : encoding_json) (mime : mime)
    (jsPublisher : transport.JetstreamPublisher) (subjectBase : String) (r : http.Request) :
    ∀ published ∈ Call.jetstreamPublishes (Handler js mime jsPublisher subjectBase r).2,
      2 ≤ (strings.Split published.1 '.').length ∧
      ((∃ fields, js.Unmarshal published.2 = .ok (.object fields)) ∨
        js.Unmarshal published.2 = .ok .null) ∧
      ∀ (c : adapter.CDEvents) (i : invalidmsg.jetStreamInvalidMsgHandler)
        (msg : transport.JetstreamMsg) (md : jetstream.MsgMetadata) (e : GoError),
        msg.Subject = published.1 → msg.Data = published.2 → msg.Metadata = .ok md →
        (∃ v, js.UnmarshalMap msg.Data = .ok v) ∧
        (Call.escalations (c.Process js msg).2 ≠ [] ∨
          Call.translations (c.Process js msg).2 ≠ []) ∧
        (∀ call ∈ Call.escalations (c.Process js msg).2,
          call.2 ≠ adapter.ErrInvalidSubject) ∧
        (∃ w, js.Unmarshal msg.Data = .ok w) ∧
        Call.jetstreamPublishes (i.Receive js msg e).2 ≠ [] := by
  intro published hpub
  obtain ⟨⟨rest, hsubject⟩, v, hv⟩ :=
    Handler_published js mime jsPublisher subjectBase r published hpub
  have hparts : 2 ≤ (strings.Split published.1 '.').length := by
    rw [hsubject]
    exact two_le_length_Split subjectBase rest
  have hvalue : (∃ fields, js.Unmarshal published.2 = .ok (.object fields)) ∨
      js.Unmarshal published.2 = .ok .null := by
    unfold encoding_json.UnmarshalMap at hv
    cases hw : js.Unmarshal published.2 with
    | error e0 => simp [hw] at hv
    | ok w =>
      cases w with
      | object fields => exact Or.inl ⟨fields, rfl⟩
      | null => exact Or.inr rfl
      | bool b => simp [hw] at hv
      | number n => simp [hw] at hv
      | string str => simp [hw] at hv
      | array a => simp [hw] at hv
  refine ⟨hparts, hvalue, ?_⟩
  intro c i msg md e hsub hdata hmd
  have hv2 : js.UnmarshalMap msg.Data = .ok v := by rw [hdata]; exact hv
  have hparts2 : 2 ≤ (adapter.subjectParts msg).length := by
    unfold adapter.subjectParts
    rw [hsub]
    exact hparts
  have hw : ∃ w, js.Unmarshal msg.Data = .ok w := by
    rw [hdata]
    rcases hvalue with ⟨fields, h⟩ | h
    · exact ⟨_, h⟩
    · exact ⟨_, h⟩
  obtain ⟨hrouted, hkind⟩ := Process_of_routable js c msg md v hmd hv2 hparts2
  refine ⟨⟨v, hv2⟩, hrouted, hkind, hw, ?_⟩
  obtain ⟨w, hw2⟩ := hw
  simp only [invalidmsg.jetStreamInvalidMsgHandler.Receive, hmd, hw2]
  split <;> simp [Call.jetstreamPublishes]

set_option maxRecDepth 100000 in
/-- The case `publish to subject test.gitea.push with X-Gitea-Event header` of
`TestWebhookHandler`, and the published message handed to the adapter of
`TestProcess`. -/
theorem Handler_published_is_routable_witness :
    Call.jetstreamPublishes (Handler tests.json tests.mediaTypes tests.mockJS "test"
      (tests.newRequest "POST" "application/json" "push" tests.validMsgData)).2 =
      [("test.gitea.push", tests.validMsgData)] ∧
    2 ≤ (strings.Split "test.gitea.push" '.').length ∧
    (∃ fields, tests.json.Unmarshal tests.validMsgData = .ok (.object fields)) ∧
    Call.escalations ((tests.newAdapter "gitea.push" (.ok tests.changeMergedEvent) none
      none).Process tests.json
      (mocks.NewJetstreamMsg "test.gitea.push" tests.validMsgData).toMsg).2 = [] ∧
    (Call.escalations ((tests.newAdapter "gitea.push" (.ok tests.changeMergedEvent) none
        none).Process tests.json
        (mocks.NewJetstreamMsg "test.gitea.push" tests.validMsgData).toMsg).2 ≠ [] ∨
      Call.translations ((tests.newAdapter "gitea.push" (.ok tests.changeMergedEvent) none
        none).Process tests.json
        (mocks.NewJetstreamMsg "test.gitea.push" tests.validMsgData).toMsg).2 ≠ []) :=
  have h := Handler_published_is_routable tests.json tests.mediaTypes tests.mockJS "test"
    (tests.newRequest "POST" "application/json" "push" tests.validMsgData)
    ("test.gitea.push", tests.validMsgData)
    (by
      have hp : Call.jetstreamPublishes (Handler tests.json tests.mediaTypes tests.mockJS
          "test" (tests.newRequest "POST" "application/json" "push" tests.validMsgData)).2 =
          [("test.gitea.push", tests.validMsgData)] := rfl
      rw [hp]
      exact List.mem_singleton.mpr rfl)
  ⟨rfl, h.1, ⟨_, rfl⟩, rfl,
    (h.2.2 (tests.newAdapter "gitea.push" (.ok tests.changeMergedEvent) none none)
      tests.handler (mocks.NewJetstreamMsg "test.gitea.push" tests.validMsgData).toMsg _
      adapter.ErrNoTranslator rfl rfl rfl).2.1⟩

end webhook
